import Mathlib

/-!
Verification development for the `nl_to_automation` declarative automation
runtime.  The Python modules `templates.py`, `conditions.py`, `executor.py`,
`validation.py` and `types.py` are shallowly embedded below: Python values
are modelled by the `Json` type (with `Json.null` playing the role of
Python's `None`), dictionaries by insertion-ordered association lists,
fallible external collaborators (the tool registry, the notification
adapter, `json.loads`, the wall clock) by explicit parameters, and the
executor's mutable state by explicit state passing.
-/

set_option maxHeartbeats 1000000

/-- Python values (documents): `null`, booleans, numbers, strings, ordered
sequences and string-keyed mappings.  Python `int` and `float` are both
modelled as rationals; this matches Python's cross-type numeric equality
(`3 == 3.0`).  `Json.null` models Python `None`. -/
inductive Json where
  | null : Json
  | bool (b : Bool) : Json
  | num (q : Rat) : Json
  | str (s : String) : Json
  | arr (elems : List Json) : Json
  | obj (fields : List (String × Json)) : Json

/-- `v is None`. -/
def is_null : Json → Bool
  | Json.null => true
  | _ => false

/-- A Python dict with string keys, modelled as an insertion-ordered
association list (Python dicts preserve insertion order and have unique
keys). -/
abbrev PyDict := List (String × Json)

/-- `d[k]` / `k in d`: first binding for `k`, if any. -/
def dget (d : PyDict) (k : String) : Option Json :=
  match d with
  | [] => none
  | (k', v) :: rest => if k' = k then some v else dget rest k

/-- `d[k] = v`: update the binding in place if the key is present, else
append (Python dict assignment preserves the original insertion position
of an existing key). -/
def dset (d : PyDict) (k : String) (v : Json) : PyDict :=
  match d with
  | [] => [(k, v)]
  | (k', v') :: rest => if k' = k then (k', v) :: rest else (k', v') :: dset rest k v

/-- Python truthiness of a value (`bool(v)`). -/
def json_truthy : Json → Bool
  | Json.null => false
  | Json.bool b => b
  | Json.num q => q ≠ 0
  | Json.str s => s ≠ ""
  | Json.arr xs => !xs.isEmpty
  | Json.obj kvs => !kvs.isEmpty

/-- Truthiness of an optional string argument (`if arg:` for a parameter
declared `Optional[str] = None`): true exactly for a non-empty string. -/
def opt_str_truthy : Option String → Bool
  | some s => s ≠ ""
  | none => false

/-- Python `s.strip()`: drop leading and trailing whitespace (executable,
unlike `String.trim`). -/
def py_strip (s : String) : String :=
  String.mk (((s.data.dropWhile Char.isWhitespace).reverse.dropWhile Char.isWhitespace).reverse)

/-- Numeral value of a list of decimal digit characters. -/
def digits_to_nat (ds : List Char) : Nat :=
  ds.foldl (fun n c => 10 * n + (c.toNat - 48)) 0

/-- Python `int(s)`: strip whitespace, optional sign, decimal digits.
Returns `none` where Python raises `ValueError`. -/
def py_parse_int (s : String) : Option Int :=
  let t := (py_strip s).data
  match t with
  | '-' :: ds => if ds ≠ [] ∧ ds.all Char.isDigit then some (-(digits_to_nat ds : Int)) else none
  | '+' :: ds => if ds ≠ [] ∧ ds.all Char.isDigit then some (digits_to_nat ds : Int) else none
  | ds => if ds ≠ [] ∧ ds.all Char.isDigit then some (digits_to_nat ds : Int) else none

/-- Decimal literal `intpart.fracpart` as a rational. -/
def decimal_to_rat (intpart fracpart : List Char) : Rat :=
  (digits_to_nat intpart : Rat) +
    (digits_to_nat fracpart : Rat) / ((10 : Rat) ^ fracpart.length)

/-- Python `float(s)` on the common decimal forms: strip whitespace,
optional sign, digits with an optional fractional part (at least one digit
overall).  Exponent, `inf` and `nan` forms are not modelled; no claim
depends on them. -/
def py_parse_float (s : String) : Option Rat :=
  let t := (py_strip s).data
  let core : List Char → Option Rat := fun u =>
    let ip := u.takeWhile Char.isDigit
    let rest := u.dropWhile Char.isDigit
    match rest with
    | [] => if ip ≠ [] then some (decimal_to_rat ip []) else none
    | '.' :: fp =>
        if fp.all Char.isDigit ∧ (ip ≠ [] ∨ fp ≠ []) then some (decimal_to_rat ip fp) else none
    | _ => none
  match t with
  | '-' :: u => (core u).map (fun q => -q)
  | '+' :: u => core u
  | u => core u

/-- Python `float(v)` coercion as used by the numeric comparison operators:
numbers pass through, booleans become 0/1, strings are parsed, everything
else raises (`none`). -/
def py_float : Json → Option Rat
  | Json.num q => some q
  | Json.bool b => some (if b then 1 else 0)
  | Json.str s => py_parse_float s
  | _ => none

mutual

/-- Python `==` on documents: numbers (and booleans, which are ints in
Python) compare by value, strings/null structurally, sequences pointwise,
mappings insensitive to key order. -/
def py_eq : Json → Json → Bool
  | Json.null, Json.null => true
  | Json.bool a, Json.bool b => a = b
  | Json.bool a, Json.num q => (if a then (1 : Rat) else 0) = q
  | Json.num q, Json.bool b => q = (if b then (1 : Rat) else 0)
  | Json.num a, Json.num b => a = b
  | Json.str a, Json.str b => a = b
  | Json.arr a, Json.arr b => py_eq_items a b
  | Json.obj a, Json.obj b => a.length = b.length && py_eq_fields a b
  | _, _ => false
termination_by j _ => sizeOf j

/-- Pointwise equality of two sequences. -/
def py_eq_items : List Json → List Json → Bool
  | [], [] => true
  | x :: xs, y :: ys => py_eq x y && py_eq_items xs ys
  | _, _ => false
termination_by l _ => sizeOf l

/-- Every binding of the first mapping is present (by key) in the second
with an equal value. -/
def py_eq_fields : List (String × Json) → PyDict → Bool
  | [], _ => true
  | (k, v) :: rest, b =>
      (match dget b k with
       | some w => py_eq v w
       | none => false) && py_eq_fields rest b
termination_by l _ => sizeOf l

end

/-- String form of a number (`str(n)`), exact for integers; non-integral
rationals (modelling Python floats) are rendered `num/den` — no claim
depends on Python's float formatting. -/
def rat_repr (q : Rat) : String :=
  if q.den = 1 then toString q.num else toString q.num ++ "/" ++ toString q.den

/-- JSON string escaping for `json.dumps` (quote, backslash and the common
control characters; other characters pass through). -/
def json_escape_char (c : Char) : String :=
  if c = '"' then "\\\""
  else if c = '\\' then "\\\\"
  else if c = '\n' then "\\n"
  else if c = '\t' then "\\t"
  else if c = '\r' then "\\r"
  else String.mk [c]

def json_escape (s : String) : String :=
  s.data.foldl (fun acc c => acc ++ json_escape_char c) ""

mutual

/-- `json.dumps(v)` with the default separators. -/
def json_dumps : Json → String
  | Json.null => "null"
  | Json.bool true => "true"
  | Json.bool false => "false"
  | Json.num q => rat_repr q
  | Json.str s => "\"" ++ json_escape s ++ "\""
  | Json.arr xs => "[" ++ json_dumps_items xs ++ "]"
  | Json.obj kvs => "\x7b" ++ json_dumps_fields kvs ++ "\x7d"
termination_by j => sizeOf j

def json_dumps_items : List Json → String
  | [] => ""
  | [x] => json_dumps x
  | x :: xs => json_dumps x ++ ", " ++ json_dumps_items xs
termination_by l => sizeOf l

def json_dumps_fields : List (String × Json) → String
  | [] => ""
  | [(k, v)] => "\"" ++ json_escape k ++ "\": " ++ json_dumps v
  | (k, v) :: kvs => "\"" ++ json_escape k ++ "\": " ++ json_dumps v ++ ", " ++ json_dumps_fields kvs
termination_by l => sizeOf l

end

mutual

/-- Python `repr(v)` (as produced inside `str()` of containers): strings in
quotes, `None`/`True`/`False`, containers recursively. -/
def py_repr : Json → String
  | Json.null => "None"
  | Json.bool true => "True"
  | Json.bool false => "False"
  | Json.num q => rat_repr q
  | Json.str s =>
      if s.data.contains '\'' ∧ ¬s.data.contains '"' then "\"" ++ s ++ "\""
      else "'" ++ s ++ "'"
  | Json.arr xs => "[" ++ py_repr_items xs ++ "]"
  | Json.obj kvs => "\x7b" ++ py_repr_fields kvs ++ "\x7d"
termination_by j => sizeOf j

def py_repr_items : List Json → String
  | [] => ""
  | [x] => py_repr x
  | x :: xs => py_repr x ++ ", " ++ py_repr_items xs
termination_by l => sizeOf l

def py_repr_fields : List (String × Json) → String
  | [] => ""
  | [(k, v)] => "'" ++ k ++ "': " ++ py_repr v
  | (k, v) :: kvs => "'" ++ k ++ "': " ++ py_repr v ++ ", " ++ py_repr_fields kvs
termination_by l => sizeOf l

end

/-- Python `str(v)`: identity on strings, `None`/`True`/`False` for the
singletons, numerals for numbers, `repr` for containers. -/
def py_str : Json → String
  | Json.null => "None"
  | Json.bool true => "True"
  | Json.bool false => "False"
  | Json.num q => rat_repr q
  | Json.str s => s
  | v => py_repr v

/-! ### Path resolver (`templates.py: get_nested_value`)

The source first rewrites bracket notation via
`re.sub(r'\[(\d+)\]', r'.\1', path)`, splits on `'.'`, then walks the
document.  Its return value is a Python object where `None` signals both
"absent" and a literal `null` — the embedding therefore returns `Json`
with `Json.null` as the failure value, exactly as the source does. -/

/-- One-pass model of `re.sub(r'\[(\d+)\]', r'.\1', path)` as a scanner:
the first state component is `none` while scanning normally and
`some ds` after an unmatched `'['` with the (reversed) digits read so
far; on `']'` after at least one digit the bracket group is replaced by
`'.' ++ digits`. -/
def rewrite_brackets_aux : Option (List Char) → List Char → List Char
  | none, [] => []
  | none, c :: rest =>
      if c = '[' then rewrite_brackets_aux (some []) rest
      else c :: rewrite_brackets_aux none rest
  | some ds, [] => '[' :: ds.reverse
  | some ds, c :: rest =>
      if c.isDigit then rewrite_brackets_aux (some (c :: ds)) rest
      else if c = ']' ∧ ds ≠ [] then '.' :: ds.reverse ++ rewrite_brackets_aux none rest
      else if c = '[' then '[' :: ds.reverse ++ rewrite_brackets_aux (some []) rest
      else '[' :: ds.reverse ++ c :: rewrite_brackets_aux none rest

def rewrite_brackets (l : List Char) : List Char :=
  rewrite_brackets_aux none l

/-- Python `path.split('.')` (always non-empty; `"" ↦ [""]`). -/
def split_dots : List Char → List (List Char)
  | [] => [[]]
  | '.' :: rest => [] :: split_dots rest
  | c :: rest =>
      match split_dots rest with
      | s :: ss => (c :: s) :: ss
      | [] => [[c]]

/-- The segment classifier of the traversal loop:
`part.isdigit() or (part.startswith('-') and part[1:].isdigit())`,
together with `int(part)`. -/
def numeric_seg (part : List Char) : Option Int :=
  if part ≠ [] ∧ part.all Char.isDigit then some (digits_to_nat part : Int)
  else
    match part with
    | '-' :: ds =>
        if ds ≠ [] ∧ ds.all Char.isDigit then some (-(digits_to_nat ds : Int)) else none
    | _ => none

/-- The `while` loop of `templates.get_nested_value`: numeric segments
index sequences (with negative indexing) or look up the verbatim key in a
mapping, a numeric segment of value 0 falls back to the same mapping when
its verbatim key is absent (per-item mode), non-numeric segments use
`dict.get` (whose default `None` conflates a missing key with a stored
`null`). -/
def tmpl_traverse : Json → List (List Char) → Json
  | current, [] => current
  | current, part :: rest =>
    match current with
    | Json.null => Json.null
    | _ =>
      match numeric_seg part with
      | some idx =>
        match current with
        | Json.arr xs =>
            if -(xs.length : Int) ≤ idx ∧ idx < (xs.length : Int) then
              tmpl_traverse (xs.getD (if idx < 0 then ((xs.length : Int) + idx).toNat else idx.toNat) Json.null) rest
            else Json.null
        | Json.obj kvs =>
            match dget kvs (String.mk part) with
            | some v => tmpl_traverse v rest
            | none => if idx = 0 then tmpl_traverse (Json.obj kvs) rest else Json.null
        | _ => Json.null
      | none =>
        match current with
        | Json.obj kvs => tmpl_traverse ((dget kvs (String.mk part)).getD Json.null) rest
        | _ => Json.null

/-- `templates.get_nested_value(data, path)`: never raises; returns
`Json.null` (Python `None`) on any failure to resolve. -/
def get_nested_value (data : Json) (path : String) : Json :=
  match data with
  | Json.null => Json.null
  | _ => tmpl_traverse data (split_dots (rewrite_brackets path.data))

example : get_nested_value (Json.obj [("subject", Json.str "x")]) "0.subject" = Json.str "x" := rfl
example : get_nested_value (Json.obj [("data", Json.arr [Json.num 70, Json.num 80])]) "data[1]" = Json.num 80 := rfl
example : get_nested_value (Json.obj [("items", Json.arr [Json.num 1, Json.num 2, Json.num 3])]) "items.-1" = Json.num 3 := rfl
example : get_nested_value (Json.obj [("a", Json.obj [("b", Json.num 1)])]) "a.c" = Json.null := rfl

/-! ### Template engine (`templates.py: resolve_template`, `resolve_parameters`)

`replace_var` consults `datetime.now` and the IANA timezone database for
its built-in date variables (computing the user-local date from
`context.user.timezone` with a UTC fallback).  These wall-clock values are
abstracted into a `Clock` environment holding the strings the source would
produce for the current instant and context; the name dispatch itself is
embedded verbatim.  No claim depends on actual calendar arithmetic. -/

/-- The wall-clock/timezone environment for the built-in template
variables (see module comment). -/
structure Clock where
  today : String
  tomorrow : String
  yesterday : String
  two_days_ago : String
  this_week_start : String
  this_week_end : String
  now : String
  now_minus_1h : String
  now_minus_6h : String
  now_minus_12h : String
  now_minus_24h : String
  today_utc : String
  yesterday_utc : String
  tomorrow_utc : String

/-- The built-in template variable names recognised by `replace_var`
before context lookup (the `_local` aliases return the user-local values,
as in the source). -/
def is_builtin_var (s : String) : Bool :=
  s = "today" ∨ s = "tomorrow" ∨ s = "yesterday" ∨ s = "two_days_ago" ∨
  s = "this_week_start" ∨ s = "this_week_end" ∨ s = "now" ∨
  s = "now_minus_1h" ∨ s = "now_minus_6h" ∨ s = "now_minus_12h" ∨ s = "now_minus_24h" ∨
  s = "today_utc" ∨ s = "yesterday_utc" ∨ s = "tomorrow_utc" ∨
  s = "today_local" ∨ s = "yesterday_local" ∨ s = "tomorrow_local"

/-- `replace_var(match)` from `resolve_template`: trim the placeholder
body, serve built-ins, otherwise resolve the body as a path in the
context; `None` (absent or null) becomes the literal sentinel
`"[No available data]"`, mappings/sequences are JSON-encoded, other
values stringified. -/
def replace_var (clock : Clock) (context : PyDict) (body : String) : String :=
  let var_path := py_strip body
  if var_path = "today" then clock.today
  else if var_path = "tomorrow" then clock.tomorrow
  else if var_path = "yesterday" then clock.yesterday
  else if var_path = "two_days_ago" then clock.two_days_ago
  else if var_path = "this_week_start" then clock.this_week_start
  else if var_path = "this_week_end" then clock.this_week_end
  else if var_path = "now" then clock.now
  else if var_path = "now_minus_1h" then clock.now_minus_1h
  else if var_path = "now_minus_6h" then clock.now_minus_6h
  else if var_path = "now_minus_12h" then clock.now_minus_12h
  else if var_path = "now_minus_24h" then clock.now_minus_24h
  else if var_path = "today_utc" then clock.today_utc
  else if var_path = "yesterday_utc" then clock.yesterday_utc
  else if var_path = "tomorrow_utc" then clock.tomorrow_utc
  else if var_path = "today_local" then clock.today
  else if var_path = "yesterday_local" then clock.yesterday
  else if var_path = "tomorrow_local" then clock.tomorrow
  else
    match get_nested_value (Json.obj context) var_path with
    | Json.null => "[No available data]"
    | Json.arr xs => json_dumps (Json.arr xs)
    | Json.obj kvs => json_dumps (Json.obj kvs)
    | v => py_str v

/-- Scanner state for `re.sub(r'\{\{([^}]+)\}\}', repl, template)`. -/
inductive TState where
  | norm : TState
  | open1 : TState
  | body (acc : List Char) : TState
  | close1 (acc : List Char) : TState

/-- One-pass model of `re.sub(r'\{\{([^}]+)\}\}', repl, template)`:
`norm` scans for an opening brace, `open1` has consumed one `'{'`,
`body acc` is inside a placeholder collecting (reversed) non-`'}'` body
characters, `close1 acc` has seen one closing `'}'` after a non-empty
body.  A second `'}'` completes the match; any failure emits the
consumed characters literally and resumes scanning exactly where the
regex engine would. -/
def subst_aux (f : String → String) : TState → List Char → List Char
  | TState.norm, [] => []
  | TState.norm, c :: rest =>
      if c = '{' then subst_aux f TState.open1 rest
      else c :: subst_aux f TState.norm rest
  | TState.open1, [] => ['{']
  | TState.open1, c :: rest =>
      if c = '{' then subst_aux f (TState.body []) rest
      else '{' :: c :: subst_aux f TState.norm rest
  | TState.body acc, [] => '{' :: '{' :: acc.reverse
  | TState.body acc, c :: rest =>
      if c = '}' then
        match acc with
        | [] => '{' :: '{' :: '}' :: subst_aux f TState.norm rest
        | _ => subst_aux f (TState.close1 acc) rest
      else subst_aux f (TState.body (c :: acc)) rest
  | TState.close1 acc, [] => '{' :: '{' :: acc.reverse ++ ['}']
  | TState.close1 acc, c :: rest =>
      if c = '}' then (f (String.mk acc.reverse)).data ++ subst_aux f TState.norm rest
      else if c = '{' then '{' :: '{' :: acc.reverse ++ '}' :: subst_aux f TState.open1 rest
      else '{' :: '{' :: acc.reverse ++ '}' :: c :: subst_aux f TState.norm rest

/-- `templates.resolve_template(template, context)`: substitute every
`\x7b\x7b…\x7d\x7d` placeholder (non-strings pass through unchanged at the
`resolve_parameters` level; this entry point is the string case). -/
def resolve_template (clock : Clock) (template : String) (context : PyDict) : String :=
  String.mk (subst_aux (replace_var clock context) TState.norm template.data)

mutual

/-- `templates.resolve_parameters(params, context)`: resolve templates in
string values, recurse into mapping values, and map over sequence values
one level deep (strings and mappings inside a sequence are resolved,
anything else — including nested sequences — passes through, as in the
source). -/
def resolve_parameters (clock : Clock) (params : PyDict) (context : PyDict) : PyDict :=
  match params with
  | [] => []
  | (k, Json.str s) :: rest =>
      (k, Json.str (resolve_template clock s context)) :: resolve_parameters clock rest context
  | (k, Json.obj kvs) :: rest =>
      (k, Json.obj (resolve_parameters clock kvs context)) :: resolve_parameters clock rest context
  | (k, Json.arr items) :: rest =>
      (k, Json.arr (resolve_list_items clock items context)) :: resolve_parameters clock rest context
  | (k, v) :: rest => (k, v) :: resolve_parameters clock rest context
termination_by sizeOf params

def resolve_list_items (clock : Clock) (items : List Json) (context : PyDict) : List Json :=
  match items with
  | [] => []
  | Json.str s :: rest =>
      Json.str (resolve_template clock s context) :: resolve_list_items clock rest context
  | Json.obj kvs :: rest =>
      Json.obj (resolve_parameters clock kvs context) :: resolve_list_items clock rest context
  | v :: rest => v :: resolve_list_items clock rest context
termination_by sizeOf items

end

/-- A concrete clock for witnesses. -/
def clock0 : Clock :=
  ⟨"2026-10-12", "2026-10-13", "2026-10-11", "2026-10-10", "2026-10-06", "2026-10-12",
   "2026-10-12T00:00:00Z", "t1", "t6", "t12", "t24", "2026-10-12", "2026-10-11", "2026-10-13"⟩

example : resolve_template clock0 "\x7b\x7bno_such\x7d\x7d" [] = "[No available data]" := rfl
example : resolve_template clock0 "a: \x7b\x7bk\x7d\x7d!" [("k", Json.num 7)] = "a: 7!" := rfl
example : resolve_template clock0 "\x7b\x7btoday\x7d\x7d" [] = "2026-10-12" := rfl
example : resolve_template clock0 "plain" [] = "plain" := rfl

/-! ### Condition evaluator (`conditions.py`) -/

/-- Lower-casing via chars (`s.lower()`), executable. -/
def py_lower (s : String) : String :=
  String.mk (s.data.map Char.toLower)

/-- Upper-casing via chars (`s.upper()`), executable. -/
def py_upper (s : String) : String :=
  String.mk (s.data.map Char.toUpper)

/-- `a` is a prefix of `b` (Python `b.startswith(a)`), executable. -/
def chars_start_with : List Char → List Char → Bool
  | [], _ => true
  | _ :: _, [] => false
  | a :: as_, b :: bs => a = b && chars_start_with as_ bs

/-- Python substring test `needle in hay`. -/
def chars_contain (needle : List Char) (hay : List Char) : Bool :=
  chars_start_with needle hay ||
    match hay with
    | [] => false
    | _ :: rest => chars_contain needle rest

/-- `conditions.compare_values(actual, op, expected)`.  `actual` is the
resolved path value, where `Json.null` is Python `None` (the resolver's
conflated absent/null result). -/
def compare_values (actual : Json) (op : String) (expected : Json) : Bool :=
  if op = "exists" then !is_null actual
  else if op = "not_exists" then is_null actual
  else if is_null actual then false
  else if op = "<" ∨ op = ">" ∨ op = "<=" ∨ op = ">=" then
    match py_float actual, py_float expected with
    | some a, some e =>
        if op = "<" then a < e
        else if op = ">" then a > e
        else if op = "<=" then a ≤ e
        else a ≥ e
    | _, _ => false
  else if op = "==" ∨ op = "eq" then py_eq actual expected
  else if op = "!=" ∨ op = "neq" then !py_eq actual expected
  else if op = "contains" then
    chars_contain (py_lower (py_str expected)).data (py_lower (py_str actual)).data
  else if op = "not_contains" then
    !chars_contain (py_lower (py_str expected)).data (py_lower (py_str actual)).data
  else if op = "starts_with" then
    chars_start_with (py_lower (py_str expected)).data (py_lower (py_str actual)).data
  else if op = "ends_with" then
    chars_start_with (py_lower (py_str expected)).data.reverse (py_lower (py_str actual)).data.reverse
  else false

/-- A condition dict, as read by `evaluate_condition`,
`evaluate_clause` and `validate_condition_structure`:  `none` models an
absent key; `value` distinguishes an absent key (`none`) from a stored
null (`some Json.null`) because the validator tests key presence.
Non-string `path`/`op`/`operator` values and non-dict clause lists, which
would raise inside the source and are rejected upstream, are outside the
model. -/
inductive Condition where
  | mk (path : Option String) (op : Option String) (value : Option Json)
       (operator : Option String) (clauses : Option (List Condition))

def Condition.path : Condition → Option String
  | Condition.mk p _ _ _ _ => p

def Condition.op : Condition → Option String
  | Condition.mk _ o _ _ _ => o

def Condition.value : Condition → Option Json
  | Condition.mk _ _ v _ _ => v

def Condition.operator : Condition → Option String
  | Condition.mk _ _ _ o _ => o

def Condition.clauses : Condition → Option (List Condition)
  | Condition.mk _ _ _ _ c => c

/-- `conditions.evaluate_clause(clause, context)`: template-resolve a
string `value` and heuristically parse it to a number (float when it
contains `'.'`, else int; on failure keep the string), resolve the
clause's `path` against the context, and compare. -/
def evaluate_clause (clock : Clock) (clause : Condition) (context : PyDict) : Bool :=
  let path := clause.path.getD ""
  let op := clause.op.getD "=="
  let expected :=
    match clause.value.getD Json.null with
    | Json.str s =>
        let s' := resolve_template clock s context
        if s'.data.contains '.' then
          match py_parse_float s' with
          | some q => Json.num q
          | none => Json.str s'
        else
          match py_parse_int s' with
          | some n => Json.num (n : Rat)
          | none => Json.str s'
    | v => v
  let actual := get_nested_value (Json.obj context) path
  compare_values actual op expected

/-- `conditions.evaluate_condition(condition, context)`: a dict with a
`path` key is a single clause; otherwise `clauses` are aggregated with
`operator` (default `AND`, upper-cased), an empty clause list is `true`,
an unknown operator is `false`.  (The source's leading
`if not condition: return True` for a falsy condition is decided by the
executor's own truthiness gate; an all-absent condition dict also returns
`true` here, as in the source.) -/
def evaluate_condition (clock : Clock) (condition : Condition) (context : PyDict) : Bool :=
  if condition.path.isSome then evaluate_clause clock condition context
  else
    let operator := py_upper (condition.operator.getD "AND")
    let clauses := condition.clauses.getD []
    if clauses.isEmpty then true
    else if operator = "AND" then clauses.all (fun c => evaluate_clause clock c context)
    else if operator = "OR" then clauses.any (fun c => evaluate_clause clock c context)
    else false

example :
    evaluate_condition clock0 (Condition.mk (some "score") (some "<") (some (Json.num 70)) none none)
      [("score", Json.num 50)] = true := rfl
example :
    evaluate_condition clock0 (Condition.mk (some "x") (some "exists") none none none)
      [("x", Json.null)] = false := rfl
example :
    evaluate_condition clock0 (Condition.mk (some "x") (some "not_exists") none none none)
      [("x", Json.null)] = true := rfl

/-! ### Static validator (`validation.py: validate_condition_structure`) -/

/-- `validation.validate_condition_structure(condition, action_id)`:
structural checks only.  A single-clause condition (one with a `path`
key) requires `op` and `value` keys; a multi-clause condition requires
`operator ∈ (AND, OR)` and a list of clauses each with `path`, `op` and
`value` keys.  (The non-dict guard of the source is vacuous here since
`Condition` is already a dict.) -/
def validate_condition_structure (condition : Condition) (action_id : String) : List String :=
  if condition.path.isSome then
    (if condition.op.isSome then [] else [action_id ++ ": condition clause missing 'op'"]) ++
    (if condition.value.isSome then [] else [action_id ++ ": condition clause missing 'value'"])
  else if condition.clauses.isSome then
    (match condition.operator with
     | none => [action_id ++ ": multi-clause condition missing 'operator'"]
     | some opr =>
        if opr = "AND" ∨ opr = "OR" then []
        else [action_id ++ ": condition operator must be 'AND' or 'OR'"]) ++
    ((condition.clauses.getD []).enum.foldl
      (fun acc cj =>
        acc ++
        (if cj.2.path.isSome then [] else [action_id ++ ": clause " ++ toString cj.1 ++ " missing 'path'"]) ++
        (if cj.2.op.isSome then [] else [action_id ++ ": clause " ++ toString cj.1 ++ " missing 'op'"]) ++
        (if cj.2.value.isSome then [] else [action_id ++ ": clause " ++ toString cj.1 ++ " missing 'value'"]))
      [])
  else []

/-! ### Preflight path check (`validation.py: get_nested_value`)

The preflight's resolver returns a `(found, value)` pair, modelled as
`Option Json`: `none` is `(False, None)` and `some v` is `(True, v)` —
unlike the runtime resolver it can report a stored `null` as found. -/

/-- The `for` loop of `validation.get_nested_value`: digit segments index
sequences (non-negative, in range) or look up the verbatim key; other
segments require a mapping containing the key.  No negative indexing and
no per-item zero fallback. -/
def val_traverse : Json → List (List Char) → Option Json
  | current, [] => some current
  | current, part :: rest =>
    match current with
    | Json.null => none
    | _ =>
      if part ≠ [] ∧ part.all Char.isDigit then
        match current with
        | Json.arr xs =>
            if digits_to_nat part < xs.length then
              val_traverse (xs.getD (digits_to_nat part) Json.null) rest
            else none
        | Json.obj kvs =>
            match dget kvs (String.mk part) with
            | some v => val_traverse v rest
            | none => none
        | _ => none
      else
        match current with
        | Json.obj kvs =>
            match dget kvs (String.mk part) with
            | some v => val_traverse v rest
            | none => none
        | _ => none

/-- The characters of the literal prefix `"trigger_data."`. -/
def trigger_data_lead : List Char :=
  ['t', 'r', 'i', 'g', 'g', 'e', 'r', '_', 'd', 'a', 't', 'a', '.']

/-- `path.startswith('trigger_data.')` stripping, on characters. -/
def strip_trigger_data (l : List Char) : List Char :=
  if l.take 13 = trigger_data_lead then l.drop 13 else l

/-- `validation.get_nested_value(data, path)`: rewrite bracket notation,
strip a leading `trigger_data.`, then traverse, reporting found-ness
separately from the value. -/
def val_get_nested_value (data : Json) (path : String) : Option Json :=
  match data with
  | Json.null => none
  | _ => val_traverse data (split_dots (strip_trigger_data (rewrite_brackets path.data)))

example :
    val_get_nested_value (Json.obj [("k", Json.null)]) "trigger_data.k" = some Json.null := rfl
example :
    val_get_nested_value (Json.obj [("subject", Json.str "x")]) "trigger_data.0.subject" = none := rfl
example :
    val_get_nested_value (Json.obj [("data", Json.arr [Json.num 1])]) "trigger_data.data[0]" = some (Json.num 1) := rfl

/-! ### Output normalizer (`executor.py: normalize_for_context`) -/

/-- `isinstance(v, (dict, list))`. -/
def is_dict_or_list : Json → Bool
  | Json.obj _ => true
  | Json.arr _ => true
  | _ => false

def wrapper_keys : List String := ["data", "summary", "result", "response", "output"]

def flatten_and_keep_keys : List String := ["contributors", "user", "author", "goals"]

/-- The inner `flatten_nested_object(key, value)` closure: keep the
original mapping, copy its primitive fields to the root when unshadowed,
and additionally promote the primitive fields of `user.profile`. -/
def flatten_nested_object (normalized : PyDict) (key : String) (value : PyDict) : PyDict :=
  let n := dset normalized key (Json.obj value)
  value.foldl
    (fun n kv =>
      let n :=
        if (dget n kv.1).isNone ∧ ¬is_dict_or_list kv.2 then dset n kv.1 kv.2 else n
      match kv.2 with
      | Json.obj pf =>
          if key = "user" ∧ kv.1 = "profile" then
            pf.foldl (fun n p => if (dget n p.1).isNone then dset n p.1 p.2 else n) n
          else n
      | _ => n)
    n

/-- `executor.normalize_for_context(item)`: falsy or non-mapping input is
wrapped as `{"value": item}` (or `{}` for `None`); otherwise wrapper keys
are kept and flattened (mapping contents to the root, or the primitive
fields of a sequence's first element), flatten-and-keep keys are processed
by `flatten_nested_object`, and all other keys pass through. -/
def normalize_for_context (item : Json) : PyDict :=
  match item with
  | Json.null => []
  | Json.obj [] => [("value", Json.obj [])]
  | Json.obj kvs =>
      kvs.foldl
        (fun n kv =>
          let key := kv.1
          if wrapper_keys.contains key then
            match kv.2 with
            | Json.obj ikvs =>
                let n := dset n key (Json.obj ikvs)
                ikvs.foldl
                  (fun n ikv =>
                    if flatten_and_keep_keys.contains ikv.1 then
                      match ikv.2 with
                      | Json.obj nkvs => flatten_nested_object n ikv.1 nkvs
                      | _ => if (dget n ikv.1).isNone then dset n ikv.1 ikv.2 else n
                    else if (dget n ikv.1).isNone then dset n ikv.1 ikv.2 else n)
                  n
            | Json.arr (x :: xs) =>
                let n := dset n key (Json.arr (x :: xs))
                match x with
                | Json.obj ikvs =>
                    ikvs.foldl
                      (fun n ikv =>
                        if (dget n ikv.1).isNone ∧ ¬is_dict_or_list ikv.2 then
                          dset n ikv.1 ikv.2
                        else n)
                      n
                | _ => n
            | v => dset n key v
          else if flatten_and_keep_keys.contains key then
            match kv.2 with
            | Json.obj vkvs => flatten_nested_object n key vkvs
            | v => dset n key v
          else dset n key kv.2)
        []
  | v => [("value", v)]

example :
    normalize_for_context (Json.obj [("data", Json.obj [("score", Json.num 85)])]) =
      [("data", Json.obj [("score", Json.num 85)]), ("score", Json.num 85)] := rfl
example :
    normalize_for_context (Json.obj [("data", Json.arr [Json.obj [("score", Json.num 85)]])]) =
      [("data", Json.arr [Json.obj [("score", Json.num 85)]]), ("score", Json.num 85)] := rfl

/-! ### JSON extractor (`executor.py: extract_json_from_string`)

`json.loads` is an external library routine; it is abstracted as an
explicit parameter `loads : String → Option Json` (`none` models
`JSONDecodeError`) that is threaded through the executor.  No claim
depends on the parser's behaviour. -/

def backtick : Char := Char.ofNat 96

/-- Length bound used for termination of the fence scanner. -/
theorem length_dropWhile_le_local (p : Char → Bool) (l : List Char) :
    (l.dropWhile p).length ≤ l.length := by
  induction l with
  | nil => simp
  | cons c rest ih =>
      rw [List.dropWhile_cons]
      split
      · simp; omega
      · simp

/-- Find the next fenced-block close: the text before the next
triple-backtick and the remainder after it. -/
def find_fence_close : List Char → Option (List Char × List Char)
  | [] => none
  | c :: rest =>
      if c = backtick ∧ rest.take 2 = [backtick, backtick] then some ([], rest.drop 2)
      else (find_fence_close rest).map (fun p => (c :: p.1, p.2))

theorem find_fence_close_length :
    ∀ l cap rem, find_fence_close l = some (cap, rem) → rem.length < l.length := by
  intro l
  induction l with
  | nil => intro cap rem h; simp [find_fence_close] at h
  | cons c rest ih =>
      intro cap rem h
      simp only [find_fence_close] at h
      split at h
      · simp only [Option.some.injEq, Prod.mk.injEq] at h
        have : rem.length ≤ rest.length := by
          rw [← h.2]; simp [List.length_drop]
        simp; omega
      · cases hf : find_fence_close rest with
        | none => rw [hf] at h; simp at h
        | some p =>
            rw [hf] at h
            simp only [Option.map_some', Option.some.injEq, Prod.mk.injEq] at h
            have := ih p.1 p.2 hf
            have h2 : rem = p.2 := by rw [← h.2]
            simp [h2]; omega

/-- `re.findall(r'```(?:json)?\s*([\s\S]*?)```', text)`: all fenced code
blocks (optionally tagged `json`), captured after leading whitespace and
non-greedily up to the nearest closing fence. -/
def code_blocks (l : List Char) : List (List Char) :=
  match l with
  | [] => []
  | c :: rest =>
      if c = backtick ∧ rest.take 2 = [backtick, backtick] then
        let after := rest.drop 2
        let after2 := if after.take 4 = ['j', 's', 'o', 'n'] then after.drop 4 else after
        let after3 := after2.dropWhile Char.isWhitespace
        match hf : find_fence_close after3 with
        | some (cap, rem) => cap :: code_blocks rem
        | none => code_blocks rest
      else code_blocks rest
termination_by l.length
decreasing_by
  · have h1 := find_fence_close_length after3 cap rem hf
    have h2 : after3.length ≤ after2.length := length_dropWhile_le_local _ _
    have h3 : after2.length ≤ after.length := by
      simp only [after2]; split
      · simp [List.length_drop]
      · exact le_refl _
    have h4 : after.length ≤ rest.length := by simp [after, List.length_drop]
    simp; omega
  · simp
  · simp

/-- The greedy regex candidate `r'(\x7b[\s\S]*\x7d)'` (or the bracket
analogue): the span from the first opening character to the last closing
character, when the latter follows the former. -/
def greedy_span (l : List Char) (o c : Char) : Option (List Char) :=
  let pre := l.dropWhile (· ≠ o)
  match pre with
  | [] => none
  | _ =>
      let rev := pre.reverse.dropWhile (· ≠ c)
      match rev with
      | [] => none
      | _ => some rev.reverse

/-- Try `json.loads(b.strip())` on each candidate, first success wins. -/
def first_parsed (loads : String → Option Json) : List (List Char) → Option Json
  | [] => none
  | b :: bs =>
      match loads (py_strip (String.mk b)) with
      | some v => some v
      | none => first_parsed loads bs

/-- `executor.extract_json_from_string(text)` (string case; non-strings
are returned unchanged by the caller): direct parse, then fenced code
blocks, then the greedy object and array spans, else the stripped
original string. -/
def extract_json_from_string (loads : String → Option Json) (text : String) : Json :=
  let t := py_strip text
  match loads t with
  | some v => v
  | none =>
    match first_parsed loads (code_blocks t.data) with
    | some v => v
    | none =>
      match (greedy_span t.data '{' '}').bind (fun cand => loads (String.mk cand)) with
      | some v => v
      | none =>
        match (greedy_span t.data '[' ']').bind (fun cand => loads (String.mk cand)) with
        | some v => v
        | none => Json.str t

/-! ### Execution types (`types.py`) -/

/-- `types.ExecutionStatus` (constructor names are capitalised like the
Python enum members; the string values are unchanged). -/
inductive ExecutionStatus where
  | Running : ExecutionStatus
  | Completed : ExecutionStatus
  | PartialFailure : ExecutionStatus
  | Failed : ExecutionStatus
  | UsageLimitExceeded : ExecutionStatus
  deriving DecidableEq, Repr

/-- `types.USAGE_LIMIT_ERROR`. -/
def USAGE_LIMIT_ERROR : String := "USAGE_LIMIT_EXCEEDED"

/-- `types.ActionResult`.  Wall-clock durations are outside the model;
`duration_ms` is always 0 here.  `output = Json.null` models the default
`output=None`. -/
structure ActionResult where
  action_id : String
  tool : Option String
  success : Bool
  duration_ms : Int
  output : Json
  error : Option String
  skipped : Bool
  condition_result : Option Bool

/-- `types.ExecutionResult`. -/
structure ExecutionResult where
  success : Bool
  status : ExecutionStatus
  actions_executed : Nat
  actions_failed : Nat
  action_results : List ActionResult
  duration_ms : Int
  error_summary : Option String

/-! ### Tool invocation (`executor.py: execute_tool`)

A registry tool's handler is a callable (sync or async, both awaited
under the per-action timeout) receiving one JSON string.  Its observable
outcomes are: a returned value, a raised exception (caught and
stringified), or a timeout.  The remaining `Tool` fields
(`name`, `description`, `parameters`, `returns`, `service`, `metadata`)
are not read by the executor and are omitted. -/

inductive HandlerOutcome where
  | ok (v : Json) : HandlerOutcome
  | exn (message : String) : HandlerOutcome
  | timeout : HandlerOutcome

structure Tool where
  handler : String → HandlerOutcome

/-- The reserved-field injection of `execute_tool` (source lines 179-183):
`parameters['user_id'] = user_id`, then `parameters['request_id'] =
request_id` only under `if request_id:` (a *truthy*, i.e. non-empty,
request id), then `parameters['is_automation'] = True`. -/
def inject_params (parameters : PyDict) (user_id : String) (request_id : Option String) : PyDict :=
  let p := dset parameters "user_id" (Json.str user_id)
  let p :=
    match request_id with
    | some r => if r ≠ "" then dset p "request_id" (Json.str r) else p
    | none => p
  dset p "is_automation" (Json.bool true)

/-- Classification of the handler's outcome (the `try` body and handlers
of `execute_tool`): `Error:`-prefixed strings fail, other strings are
JSON-parsed when possible, exceptions and timeouts fail with their
message. -/
def handle_tool_outcome (loads : String → Option Json) (outcome : HandlerOutcome)
    (timeout_str : String) : Bool × Json × Option String :=
  match outcome with
  | HandlerOutcome.timeout =>
      (false, Json.null, some ("Tool execution timed out after " ++ timeout_str ++ "s"))
  | HandlerOutcome.exn m => (false, Json.null, some m)
  | HandlerOutcome.ok r =>
      match r with
      | Json.str s =>
          if s.startsWith "Error:" then (false, Json.null, some s)
          else
            match loads s with
            | some v => (true, v, none)
            | none => (true, Json.str s, none)
      | v => (true, v, none)

/-- `executor.execute_tool`: look up the tool (a `None` tool name cannot
be found), inject the reserved fields, serialize to a JSON string, invoke
the handler, classify.  `timeout_str` stands for `str(timeout)` in the
timeout message (timing itself is outside the model). -/
def execute_tool (loads : String → Option Json) (registry : String → Option Tool)
    (tool_name : Option String) (parameters : PyDict) (user_id : String)
    (request_id : Option String) (timeout_str : String) : Bool × Json × Option String :=
  let looked :=
    match tool_name with
    | some n => registry n
    | none => none
  match looked with
  | none =>
      (false, Json.null,
        some ("Tool not found: " ++ (match tool_name with | some n => n | none => "None")))
  | some tool =>
      handle_tool_outcome loads
        (tool.handler (json_dumps (Json.obj (inject_params parameters user_id request_id))))
        timeout_str

/-- `executor.is_usage_limit_error(output)`. -/
def is_usage_limit_error : Json → Bool
  | Json.obj kvs =>
      match dget kvs "error" with
      | some (Json.str s) => s = USAGE_LIMIT_ERROR
      | _ => false
  | _ => false

/-! ### The executor (`executor.py: execute_automation`) -/

/-- `interfaces.UserInfo`. -/
structure UserInfo where
  id : String
  email : String
  timezone : String
  phone : Option String
  name : Option String

/-- The `user_dict` built at the top of `execute_automation`: `phone` and
`name` are added only when truthy. -/
def user_dict (u : UserInfo) : PyDict :=
  let d := [("id", Json.str u.id), ("email", Json.str u.email), ("timezone", Json.str u.timezone)]
  let d := match u.phone with
    | some p => if p ≠ "" then d ++ [("phone", Json.str p)] else d
    | none => d
  match u.name with
  | some n => if n ≠ "" then d ++ [("name", Json.str n)] else d
  | none => d

/-- The initial execution context (source lines 321-330): spread
`trigger_data` at the root, then write the reserved keys `user` and
`trigger_data`, then spread the user variables (`vars`; the source calls
them `variables`, a keyword here) on top. -/
def initial_context (trigger_data : PyDict) (vars : PyDict) (u : UserInfo) : PyDict :=
  let c := trigger_data.foldl (fun acc kv => dset acc kv.1 kv.2) []
  let c := dset c "user" (Json.obj (user_dict u))
  let c := dset c "trigger_data" (Json.obj trigger_data)
  vars.foldl (fun acc kv => dset acc kv.1 kv.2) c

/-- An action dict, as read by the executor: `none` models an absent (or
`None`-valued) key; a `condition` that is present but falsy (the empty
dict) is also `none`, matching the executor's `if condition:` gate.
Non-string/dict-typed field values, which would raise inside the source,
are outside the model.  (Named `ActionDict` because `Action` is taken by
Mathlib.) -/
structure ActionDict where
  action_id : Option String
  id : Option String
  tool : Option String
  condition : Option Condition
  params : Option PyDict
  parameters : Option PyDict
  output_as : Option String

/-- `action.get('action_id') or action.get('id', f"action_{len(action_results)}")`
(`or` falls through on a falsy — empty — explicit id). -/
def action_id_of (a : ActionDict) (k : Nat) : String :=
  let fallback :=
    match a.id with
    | some s => s
    | none => "action_" ++ toString k
  match a.action_id with
  | some s => if s = "" then fallback else s
  | none => fallback

/-- `action.get('params') or action.get('parameters', {})`. -/
def params_of (a : ActionDict) : PyDict :=
  match a.params with
  | some p => if p.isEmpty then a.parameters.getD [] else p
  | none => a.parameters.getD []

/-- `condition_result=True if condition else None` on the non-skip
paths. -/
def cond_result_of (a : ActionDict) : Option Bool :=
  match a.condition with
  | some _ => some true
  | none => none

/-- `automation_name or "Your automation"`. -/
def name_or_default : Option String → String
  | some n => if n = "" then "Your automation" else n
  | none => "Your automation"

/-- One recorded `notify_usage_limit_exceeded(user_id, automation_id,
automation_name)` call (the adapter's own failures are swallowed by
`handle_usage_limit_exceeded`, so a call is recorded whether or not
delivery succeeds). -/
abbrev Notif := String × String × String

/-- The mutable state of the per-action loop. -/
structure ExecState where
  context : PyDict
  results : List ActionResult
  executed : Nat
  failed : Nat
  errors : List String
  notifications : List Notif

/-- The fixed arguments of one execution (adapters and identifiers). -/
structure ExecEnv where
  loads : String → Option Json
  registry : String → Option Tool
  clock : Clock
  user_id : String
  notification_handler : Bool
  automation_id : Option String
  automation_name : Option String
  request_id : Option String
  timeout_str : String

inductive StepRes where
  | cont (st : ExecState) : StepRes
  | halted (r : ExecutionResult) (ns : List Notif) : StepRes

/-- The final status classification (source lines 458-479). -/
def finalize_result (st : ExecState) : ExecutionResult :=
  let sp : ExecutionStatus × Bool :=
    if st.failed = 0 then (ExecutionStatus.Completed, true)
    else if st.failed < st.executed then (ExecutionStatus.PartialFailure, true)
    else (ExecutionStatus.Failed, false)
  { success := sp.2
    status := sp.1
    actions_executed := st.executed
    actions_failed := st.failed
    action_results := st.results
    duration_ms := 0
    error_summary :=
      if st.errors.isEmpty then none else some (String.intercalate "; " st.errors) }

/-- One iteration of the executor's per-action loop: gate on the
condition, resolve parameters, invoke the tool, detect the usage-limit
sentinel (halting), bind `output_as` output (extracted from strings and
normalized when a mapping), and append exactly one `ActionResult`. -/
def exec_step (env : ExecEnv) (a : ActionDict) (st : ExecState) : StepRes :=
  let aid := action_id_of a st.results.length
  let gate :=
    match a.condition with
    | some c => evaluate_condition env.clock c st.context
    | none => true
  if gate = false then
    StepRes.cont
      { st with
        results := st.results ++
          [{ action_id := aid, tool := a.tool, success := true, duration_ms := 0,
             output := Json.null, error := none, skipped := true,
             condition_result := some false }] }
  else
    let resolved := resolve_parameters env.clock (params_of a) st.context
    let out3 := execute_tool env.loads env.registry a.tool resolved env.user_id env.request_id env.timeout_str
    let success := out3.1
    let output := out3.2.1
    let error := out3.2.2
    let executed := st.executed + 1
    if success ∧ is_usage_limit_error output then
      let okvs := match output with | Json.obj kvs => kvs | _ => []
      let service := py_str ((dget okvs "service").getD (Json.str "unknown"))
      let message := py_str ((dget okvs "message").getD (Json.str "Usage limit reached"))
      let notifications :=
        if env.notification_handler ∧ opt_str_truthy env.automation_id then
          st.notifications ++
            [(env.user_id, env.automation_id.getD "", name_or_default env.automation_name)]
        else st.notifications
      let results := st.results ++
        [{ action_id := aid, tool := a.tool, success := false, duration_ms := 0,
           output := Json.null, error := some ("Usage limit exceeded: " ++ message),
           skipped := false, condition_result := cond_result_of a }]
      StepRes.halted
        { success := false
          status := ExecutionStatus.UsageLimitExceeded
          actions_executed := executed
          actions_failed := 1
          action_results := results
          duration_ms := 0
          error_summary := some ("Usage limit exceeded for " ++ service) }
        notifications
    else if success then
      let context :=
        match a.output_as with
        | some name =>
            if name ≠ "" then
              let processed :=
                match output with
                | Json.str s => extract_json_from_string env.loads s
                | v => v
              let normalized :=
                match processed with
                | Json.obj kvs => Json.obj (normalize_for_context (Json.obj kvs))
                | v => v
              dset st.context name normalized
            else st.context
        | none => st.context
      StepRes.cont
        { st with
          context := context
          executed := executed
          results := st.results ++
            [{ action_id := aid, tool := a.tool, success := true, duration_ms := 0,
               output := output, error := none, skipped := false,
               condition_result := cond_result_of a }] }
    else
      StepRes.cont
        { st with
          executed := executed
          failed := st.failed + 1
          errors := st.errors ++ [aid ++ ": " ++ error.getD "None"]
          results := st.results ++
            [{ action_id := aid, tool := a.tool, success := false, duration_ms := 0,
               output := Json.null, error := error, skipped := false,
               condition_result := cond_result_of a }] }

/-- The executor's `for action in actions:` loop with its early return on
the usage-limit path; at the end the status classifier runs. -/
def exec_loop (env : ExecEnv) : List ActionDict → ExecState → ExecutionResult × List Notif
  | [], st => (finalize_result st, st.notifications)
  | a :: rest, st =>
      match exec_step env a st with
      | StepRes.cont st' => exec_loop env rest st'
      | StepRes.halted r ns => (r, ns)

/-- `executor.execute_automation`: build the initial context, run the
per-action loop, classify.  Also returns the list of usage-limit
notification calls made through the notification adapter. -/
def execute_automation (env : ExecEnv) (actions : List ActionDict)
    (vars : PyDict) (trigger_data : PyDict) (user_info : UserInfo) :
    ExecutionResult × List Notif :=
  exec_loop env actions
    { context := initial_context trigger_data vars user_info
      results := []
      executed := 0
      failed := 0
      errors := []
      notifications := [] }

/-! ### Dictionary lemmas -/

theorem dget_dset_self (d : PyDict) (k : String) (v : Json) :
    dget (dset d k v) k = some v := by
  induction d with
  | nil => simp [dget, dset]
  | cons kv rest ih =>
      obtain ⟨k', v'⟩ := kv
      by_cases h : k' = k
      · subst h; simp [dget, dset]
      · simp [dget, dset, h, ih]

theorem dget_dset_other (d : PyDict) (k k' : String) (v : Json) (h : k' ≠ k) :
    dget (dset d k v) k' = dget d k' := by
  have hne : ¬(k = k') := fun hh => h hh.symm
  induction d with
  | nil => simp [dget, dset, hne]
  | cons kv rest ih =>
      obtain ⟨k0, v0⟩ := kv
      by_cases h0 : k0 = k
      · subst h0
        simp [dget, dset, hne]
      · simp only [dset, if_neg h0, dget]
        by_cases h1 : k0 = k'
        · simp [h1]
        · simp [h1, ih]

/-- Folding dict assignments: a key outside the spread list keeps its
prior binding. -/
theorem dget_foldl_dset_not_mem (l : List (String × Json)) (init : PyDict) (k : String)
    (h : k ∉ l.map Prod.fst) :
    dget (l.foldl (fun acc kv => dset acc kv.1 kv.2) init) k = dget init k := by
  induction l generalizing init with
  | nil => simp
  | cons kv rest ih =>
      obtain ⟨k0, v0⟩ := kv
      simp only [List.map_cons, List.mem_cons] at h
      push_neg at h
      simp only [List.foldl_cons]
      rw [ih _ h.2]
      exact dget_dset_other init k0 k v0 h.1

/-- Folding dict assignments: a key bound in a duplicate-free spread list
ends with its value from the list. -/
theorem dget_foldl_dset_mem (l : List (String × Json)) (init : PyDict) (k : String) (v : Json)
    (hnd : (l.map Prod.fst).Nodup) (h : (k, v) ∈ l) :
    dget (l.foldl (fun acc kv => dset acc kv.1 kv.2) init) k = some v := by
  induction l generalizing init with
  | nil => simp at h
  | cons kv rest ih =>
      obtain ⟨k0, v0⟩ := kv
      simp only [List.map_cons, List.nodup_cons] at hnd
      rcases List.mem_cons.mp h with hh | hh
      · rw [Prod.mk.injEq] at hh
        obtain ⟨rfl, rfl⟩ := hh
        simp only [List.foldl_cons]
        rw [dget_foldl_dset_not_mem _ _ _ hnd.1]
        exact dget_dset_self _ _ _
      · simp only [List.foldl_cons]
        exact ih (dset init k0 v0) hnd.2 hh

/-! ### Claim C5 -/

/-- Claim C5: the initial execution context spreads `trigger_data` at the
root, then writes the reserved keys `user` and `trigger_data` (so fields
of those names inside `trigger_data` never shadow them), then spreads the
user variables last, so a user variable of any name — `user` and
`trigger_data` included — overrides the earlier entries. -/
theorem C5_context_precedence (trigger_data vars : PyDict) (u : UserInfo)
    (hnd : (vars.map Prod.fst).Nodup) :
    (∀ k v, (k, v) ∈ vars → dget (initial_context trigger_data vars u) k = some v) ∧
    ("user" ∉ vars.map Prod.fst →
      dget (initial_context trigger_data vars u) "user" = some (Json.obj (user_dict u))) ∧
    ("trigger_data" ∉ vars.map Prod.fst →
      dget (initial_context trigger_data vars u) "trigger_data" = some (Json.obj trigger_data)) := by
  unfold initial_context
  refine ⟨?_, ?_, ?_⟩
  · intro k v hv
    exact dget_foldl_dset_mem _ _ _ _ hnd hv
  · intro hn
    rw [dget_foldl_dset_not_mem _ _ _ hn]
    rw [dget_dset_other _ _ _ _ (by decide)]
    exact dget_dset_self _ _ _
  · intro hn
    rw [dget_foldl_dset_not_mem _ _ _ hn]
    exact dget_dset_self _ _ _

/-- Witness for C5 at a concrete input: a user variable named `user`
overrides the reserved key, while an unshadowed `trigger_data` key holds
the original nested trigger data even though the trigger data itself
contains a `trigger_data` field. -/
theorem C5_context_precedence_witness :
    dget (initial_context [("trigger_data", Json.num 1), ("user", Json.num 2)]
            [("user", Json.str "mine")] ⟨"u1", "e@x", "UTC", none, none⟩) "user" =
        some (Json.str "mine") ∧
    dget (initial_context [("trigger_data", Json.num 1), ("user", Json.num 2)]
            [("user", Json.str "mine")] ⟨"u1", "e@x", "UTC", none, none⟩) "trigger_data" =
        some (Json.obj [("trigger_data", Json.num 1), ("user", Json.num 2)]) := by
  have h := C5_context_precedence [("trigger_data", Json.num 1), ("user", Json.num 2)]
    [("user", Json.str "mine")] ⟨"u1", "e@x", "UTC", none, none⟩ (by simp)
  exact ⟨h.1 "user" (Json.str "mine") (by simp), h.2.2 (by simp)⟩

/-! ### Claim C10 -/

/-- Claim C10 (amended): before every tool invocation the runtime
overwrites the resolved parameters so that `user_id` is the executing
user's id and `is_automation` is true — regardless of what the action's
own resolved parameters supplied — and `request_id` equals the provided
request id whenever that id is a non-empty string (the source's
`if request_id:` treats an empty string as unset).  `execute_tool`
serializes exactly this injected mapping into the handler's payload. -/
theorem C10_reserved_parameter_injection (p : PyDict) (u : String) (rid : Option String) :
    dget (inject_params p u rid) "user_id" = some (Json.str u) ∧
    dget (inject_params p u rid) "is_automation" = some (Json.bool true) ∧
    (∀ s, rid = some s → s ≠ "" →
      dget (inject_params p u rid) "request_id" = some (Json.str s)) ∧
    (∀ (loads : String → Option Json) (registry : String → Option Tool)
        (n : String) (t : Tool) (ts : String),
      registry n = some t →
      execute_tool loads registry (some n) p u rid ts =
        handle_tool_outcome loads
          (t.handler (json_dumps (Json.obj (inject_params p u rid)))) ts) := by
  refine ⟨?_, ?_, ?_, ?_⟩
  · unfold inject_params
    rw [dget_dset_other _ _ _ _ (by decide)]
    rcases rid with _ | r
    · exact dget_dset_self _ _ _
    · dsimp only
      by_cases hr : r = ""
      · subst hr
        rw [if_neg (by decide)]
        exact dget_dset_self _ _ _
      · rw [if_pos hr]
        rw [dget_dset_other _ _ _ _ (by decide)]
        exact dget_dset_self _ _ _
  · unfold inject_params
    exact dget_dset_self _ _ _
  · intro s hs hne
    subst hs
    unfold inject_params
    rw [dget_dset_other _ _ _ _ (by decide)]
    simp only [if_pos hne]
    exact dget_dset_self _ _ _
  · intro loads registry n t ts hreg
    unfold execute_tool
    simp [hreg]

/-- Counterexample for C10 as stated: with a provided — but empty —
request id, the injection leaves an action-supplied `request_id`
parameter in place, so the tool payload's `request_id` is the action's
value, not the provided one. -/
theorem C10_empty_request_id_counterexample :
    dget (inject_params [("request_id", Json.str "fake")] "u7" (some "")) "request_id" =
      some (Json.str "fake") := rfl

/-- Witness for C10 at a concrete input: action parameters trying to
spoof all three reserved names are overwritten. -/
theorem C10_reserved_parameter_injection_witness :
    dget (inject_params
      [("user_id", Json.str "attacker"), ("is_automation", Json.bool false),
       ("request_id", Json.str "fake")] "u7" (some "r9")) "user_id" = some (Json.str "u7") ∧
    dget (inject_params
      [("user_id", Json.str "attacker"), ("is_automation", Json.bool false),
       ("request_id", Json.str "fake")] "u7" (some "r9")) "is_automation" = some (Json.bool true) ∧
    dget (inject_params
      [("user_id", Json.str "attacker"), ("is_automation", Json.bool false),
       ("request_id", Json.str "fake")] "u7" (some "r9")) "request_id" = some (Json.str "r9") := by
  have h := C10_reserved_parameter_injection
    [("user_id", Json.str "attacker"), ("is_automation", Json.bool false),
     ("request_id", Json.str "fake")] "u7" (some "r9")
  exact ⟨h.1, h.2.1, h.2.2.1 "r9" rfl (by decide)⟩

/-! ### Claim C3 -/

/-- Claim C3 (amended): `compare_values(actual, 'exists', _)` is true iff
`actual` is not `None` — but the runtime path resolver does *not*
distinguish absent from null (both resolve to `None`), so a clause whose
path resolves to a key that is present with the value null makes
`exists` evaluate to false and `not_exists` to true. -/
theorem C3_exists_conflates_null :
    (∀ (a e : Json), compare_values a "exists" e = !is_null a ∧
        compare_values a "not_exists" e = is_null a) ∧
    (∀ (clock : Clock) (ctx : PyDict) (c : Condition) (p : String),
      c.path = some p → c.op = some "exists" →
      get_nested_value (Json.obj ctx) p = Json.null →
      evaluate_condition clock c ctx = false) ∧
    (∀ (clock : Clock) (ctx : PyDict) (c : Condition) (p : String),
      c.path = some p → c.op = some "not_exists" →
      get_nested_value (Json.obj ctx) p = Json.null →
      evaluate_condition clock c ctx = true) := by
  refine ⟨fun a e => ⟨rfl, rfl⟩, ?_, ?_⟩
  · intro clock ctx c p hp hop hnull
    unfold evaluate_condition
    rw [hp]
    simp only [Option.isSome_some, if_pos]
    unfold evaluate_clause
    rw [hp, hop]
    simp only [Option.getD_some]
    rw [hnull]
    rfl
  · intro clock ctx c p hp hop hnull
    unfold evaluate_condition
    rw [hp]
    simp only [Option.isSome_some, if_pos]
    unfold evaluate_clause
    rw [hp, hop]
    simp only [Option.getD_some]
    rw [hnull]
    rfl

/-- Counterexample for C3 as stated: in a context where the key `x` is
present with the value null, the condition `(path: x, op: exists)`
evaluates to false (the claim says true) and `not_exists` to true. -/
theorem C3_present_null_counterexample :
    dget [("x", Json.null)] "x" = some Json.null ∧
    evaluate_condition clock0 (Condition.mk (some "x") (some "exists") none none none)
      [("x", Json.null)] = false ∧
    evaluate_condition clock0 (Condition.mk (some "x") (some "not_exists") none none none)
      [("x", Json.null)] = true := ⟨rfl, rfl, rfl⟩

/-- Witness for C3 at a concrete input. -/
theorem C3_exists_conflates_null_witness :
    evaluate_condition clock0 (Condition.mk (some "score") (some "exists") none none none)
      [("other", Json.num 1)] = false := by
  have h := C3_exists_conflates_null
  exact h.2.1 clock0 [("other", Json.num 1)]
    (Condition.mk (some "score") (some "exists") none none none) "score" rfl rfl rfl

/-! ### Rewrite-scanner lemmas -/

/-- Characters before any `'['` pass through the bracket rewriter. -/
theorem rewrite_aux_no_bracket (s t : List Char) (h : '[' ∉ s) :
    rewrite_brackets_aux none (s ++ t) = s ++ rewrite_brackets_aux none t := by
  induction s with
  | nil => simp
  | cons c s' ih =>
      simp only [List.mem_cons] at h
      push_neg at h
      have hc : ¬(c = '[') := fun hh => h.1 hh.symm
      simp only [List.cons_append, rewrite_brackets_aux, if_neg hc, List.append_eq]
      rw [ih h.2]

/-- Inside a bracket group, a run of digits closed by `']'` rewrites to a
dot followed by the digits. -/
theorem rewrite_aux_digits (ds : List Char) :
    ∀ (acc u : List Char), (acc ≠ [] ∨ ds ≠ []) → ds.all Char.isDigit →
    rewrite_brackets_aux (some acc) (ds ++ ']' :: u) =
      '.' :: (acc.reverse ++ ds) ++ rewrite_brackets_aux none u := by
  induction ds with
  | nil =>
      intro acc u hne _
      have hacc : acc ≠ [] := by
        rcases hne with h | h
        · exact h
        · exact absurd rfl h
      simp only [List.nil_append, rewrite_brackets_aux]
      rw [if_neg (by decide)]
      rw [if_pos (by simp [hacc])]
      simp
  | cons d ds' ih =>
      intro acc u _ hdig
      simp only [List.all_cons, Bool.and_eq_true] at hdig
      simp only [List.cons_append, rewrite_brackets_aux, if_pos hdig.1, List.append_eq]
      rw [ih (d :: acc) u (Or.inl (by simp)) hdig.2]
      simp


/-- Resolution depends on the path only through the bracket-rewritten
character list. -/
theorem get_nested_value_congr_path (d : Json) (p q : String)
    (h : rewrite_brackets p.data = rewrite_brackets q.data) :
    get_nested_value d p = get_nested_value d q := by
  cases d <;> simp only [get_nested_value.eq_def] <;> rw [h]

/-- Bracket groups rewrite to dotted segments: `s[ds]t ↦ s.dst` for a
bracket-free prefix and a non-empty digit run. -/
theorem rewrite_brackets_bracket_eq (s ds t : String) (hs : '[' ∉ s.data)
    (hne : ds.data ≠ []) (hdig : ds.data.all Char.isDigit) :
    rewrite_brackets (s ++ "[" ++ ds ++ "]" ++ t).data =
      rewrite_brackets (s ++ "." ++ ds ++ t).data := by
  have hdsb : '[' ∉ ds.data := by
    intro hmem
    have := List.all_eq_true.mp hdig _ hmem
    simp at this
  have hdata1 : (s ++ "[" ++ ds ++ "]" ++ t).data =
      s.data ++ ('[' :: (ds.data ++ ']' :: t.data)) := by
    simp [String.data_append]
  have hdata2 : (s ++ "." ++ ds ++ t).data =
      s.data ++ ('.' :: (ds.data ++ t.data)) := by
    simp [String.data_append]
  unfold rewrite_brackets
  rw [hdata1, hdata2]
  rw [rewrite_aux_no_bracket _ _ hs, rewrite_aux_no_bracket _ _ hs]
  congr 1
  have hopen : rewrite_brackets_aux none ('[' :: (ds.data ++ ']' :: t.data)) =
      rewrite_brackets_aux (some []) (ds.data ++ ']' :: t.data) := by
    simp [rewrite_brackets_aux]
  rw [hopen, rewrite_aux_digits ds.data [] t.data (Or.inr hne) hdig]
  have hdot : rewrite_brackets_aux none ('.' :: (ds.data ++ t.data)) =
      '.' :: rewrite_brackets_aux none (ds.data ++ t.data) := by
    simp [rewrite_brackets_aux]
  rw [hdot, rewrite_aux_no_bracket _ _ hdsb]
  simp

/-- Unfolding of the traversal at a sequence with a numeric segment. -/
theorem tmpl_traverse_arr_numeric (xs : List Json) (s : List Char) (i : Int)
    (rest : List (List Char)) (h : numeric_seg s = some i) :
    tmpl_traverse (Json.arr xs) (s :: rest) =
      if -(xs.length : Int) ≤ i ∧ i < (xs.length : Int) then
        tmpl_traverse (xs.getD (if i < 0 then ((xs.length : Int) + i).toNat else i.toNat) Json.null)
          rest
      else Json.null := by
  rw [tmpl_traverse.eq_def]
  dsimp only
  rw [h]

/-- Unfolding of the traversal at a mapping with a numeric segment. -/
theorem tmpl_traverse_obj_numeric (kvs : List (String × Json)) (s : List Char) (i : Int)
    (rest : List (List Char)) (h : numeric_seg s = some i) :
    tmpl_traverse (Json.obj kvs) (s :: rest) =
      match dget kvs (String.mk s) with
      | some v => tmpl_traverse v rest
      | none => if i = 0 then tmpl_traverse (Json.obj kvs) rest else Json.null := by
  rw [tmpl_traverse.eq_def]
  dsimp only
  rw [h]

/-! ### Claim C6 -/

/-- Claim C6: the runtime path resolver (i) rewrites bracket segments
`name[i]` to `name.i` before traversal, (ii) indexes sequences by numeric
segments with negative-index support (`-1` is the last element) and
returns absent (`Json.null`) out of range, (iii) skips a numeric segment
of value 0 over a mapping lacking that verbatim key and retries the same
node (per-item fallback), so that `get(\x7bsubject: "x"\x7d, "0.subject") = "x"`.
(Total absence of exceptions is intrinsic to the embedding: the resolver
is a total function returning `Json.null` on failure.) -/
theorem C6_path_resolver_semantics :
    (∀ (d : Json) (s ds t : String), '[' ∉ s.data → ds.data ≠ [] →
      ds.data.all Char.isDigit →
      get_nested_value d (s ++ "[" ++ ds ++ "]" ++ t) =
        get_nested_value d (s ++ "." ++ ds ++ t)) ∧
    (∀ (xs : List Json) (s : List Char) (i : Int) (rest : List (List Char)),
      numeric_seg s = some i →
      ((-(xs.length : Int) ≤ i ∧ i < (xs.length : Int) →
          tmpl_traverse (Json.arr xs) (s :: rest) =
            tmpl_traverse
              (xs.getD (if i < 0 then ((xs.length : Int) + i).toNat else i.toNat) Json.null)
              rest) ∧
        ((i < -(xs.length : Int) ∨ (xs.length : Int) ≤ i) →
          tmpl_traverse (Json.arr xs) (s :: rest) = Json.null))) ∧
    (∀ (xs : List Json) (x : Json) (rest : List (List Char)),
      tmpl_traverse (Json.arr (xs ++ [x])) (['-', '1'] :: rest) = tmpl_traverse x rest) ∧
    (∀ (kvs : List (String × Json)) (s : List Char) (rest : List (List Char)),
      numeric_seg s = some 0 → dget kvs (String.mk s) = none →
      tmpl_traverse (Json.obj kvs) (s :: rest) = tmpl_traverse (Json.obj kvs) rest) ∧
    get_nested_value (Json.obj [("subject", Json.str "x")]) "0.subject" = Json.str "x" := by
  refine ⟨?_, ?_, ?_, ?_, rfl⟩
  · intro d s ds t hs hne hdig
    exact get_nested_value_congr_path d _ _ (rewrite_brackets_bracket_eq s ds t hs hne hdig)
  · intro xs s i rest h
    rw [tmpl_traverse_arr_numeric xs s i rest h]
    constructor
    · intro hin
      rw [if_pos hin]
    · intro hout
      rw [if_neg (by omega)]
  · intro xs x rest
    rw [tmpl_traverse_arr_numeric (xs ++ [x]) ['-', '1'] (-1) rest rfl]
    rw [if_pos (by simp; omega)]
    have hidx : ((((xs ++ [x]).length : Int) + (-1)).toNat) = xs.length := by
      simp
    rw [if_pos (by omega), hidx]
    simp [List.getD_append_right]
  · intro kvs s rest h hget
    rw [tmpl_traverse_obj_numeric kvs s 0 rest h, hget]
    simp

/-- Witness for C6 at concrete inputs (bracket rewriting, negative
indexing, out-of-range, and the per-item fallback). -/
theorem C6_path_resolver_semantics_witness :
    get_nested_value (Json.obj [("data", Json.arr [Json.num 70, Json.num 80])]) "data[1]" =
      get_nested_value (Json.obj [("data", Json.arr [Json.num 70, Json.num 80])]) "data.1" ∧
    tmpl_traverse (Json.arr [Json.num 1, Json.num 2, Json.num 3]) [['-', '1']] = Json.num 3 ∧
    tmpl_traverse (Json.arr [Json.num 1, Json.num 2]) [['5']] = Json.null ∧
    tmpl_traverse (Json.obj [("subject", Json.str "x")]) [['0'], "subject".data] =
      Json.str "x" := by
  have h := C6_path_resolver_semantics
  refine ⟨h.1 _ "data" "1" "" (by decide) (by decide) (by decide), ?_, ?_, ?_⟩
  · have := h.2.2.1 [Json.num 1, Json.num 2] (Json.num 3) []
    simpa using this
  · have := (h.2.1 [Json.num 1, Json.num 2] ['5'] 5 [] rfl).2 (by simp)
    simpa using this
  · have := h.2.2.2.1 [("subject", Json.str "x")] ['0'] ["subject".data] rfl rfl
    simpa using this

/-! ### Preflight / runtime resolver correspondence -/

theorem numeric_seg_digits (part : List Char) (h1 : part ≠ []) (h2 : part.all Char.isDigit) :
    numeric_seg part = some (digits_to_nat part : Int) := by
  simp [numeric_seg, h1, h2]

/-- A mapping binding found by `dget` is followed by the runtime
traversal whatever the segment's numeric status. -/
theorem tmpl_traverse_obj_found (kvs : List (String × Json)) (part : List Char)
    (rest : List (List Char)) (v' : Json) (h : dget kvs (String.mk part) = some v') :
    tmpl_traverse (Json.obj kvs) (part :: rest) = tmpl_traverse v' rest := by
  rw [tmpl_traverse.eq_def]
  dsimp only
  cases hn : numeric_seg part <;> rw [h] <;> simp

/-- Whenever the preflight resolver reports a value found, the runtime
resolver follows exactly the same steps and returns that value. -/
theorem val_tmpl_agree :
    ∀ (segs : List (List Char)) (cur v : Json),
      val_traverse cur segs = some v → tmpl_traverse cur segs = v := by
  intro segs
  induction segs with
  | nil =>
      intro cur v h
      rw [val_traverse.eq_def] at h
      dsimp only at h
      cases h
      rw [tmpl_traverse.eq_def]
  | cons part rest ih =>
      intro cur v h
      match cur with
      | Json.null =>
          rw [val_traverse.eq_def] at h
          dsimp only at h
          exact absurd h (by simp)
      | Json.bool b =>
          rw [val_traverse.eq_def] at h
          dsimp only at h
          split at h <;> simp at h
      | Json.num q =>
          rw [val_traverse.eq_def] at h
          dsimp only at h
          split at h <;> simp at h
      | Json.str s =>
          rw [val_traverse.eq_def] at h
          dsimp only at h
          split at h <;> simp at h
      | Json.arr xs =>
          rw [val_traverse.eq_def] at h
          dsimp only at h
          by_cases hd : part ≠ [] ∧ part.all Char.isDigit
          · rw [if_pos hd] at h
            by_cases hlen : digits_to_nat part < xs.length
            · rw [if_pos hlen] at h
              rw [tmpl_traverse_arr_numeric xs part (digits_to_nat part : Int) rest
                    (numeric_seg_digits part hd.1 hd.2)]
              rw [if_pos (by constructor <;> omega)]
              rw [if_neg (by omega)]
              simp only [Int.toNat_ofNat]
              exact ih _ _ h
            · rw [if_neg hlen] at h
              simp at h
          · rw [if_neg hd] at h
            simp at h
      | Json.obj kvs =>
          rw [val_traverse.eq_def] at h
          dsimp only at h
          by_cases hd : part ≠ [] ∧ part.all Char.isDigit
          · rw [if_pos hd] at h
            cases hg : dget kvs (String.mk part) with
            | none => rw [hg] at h; simp at h
            | some v' =>
                rw [hg] at h
                rw [tmpl_traverse_obj_found kvs part rest v' hg]
                exact ih _ _ h
          · rw [if_neg hd] at h
            cases hg : dget kvs (String.mk part) with
            | none => rw [hg] at h; simp at h
            | some v' =>
                rw [hg] at h
                rw [tmpl_traverse_obj_found kvs part rest v' hg]
                exact ih _ _ h

/-- Rewriting then stripping the literal `trigger_data.` prefix leaves
exactly the rewritten remainder (the prefix contains no bracket). -/
theorem strip_rewrite_trigger (rest : String) :
    strip_trigger_data (rewrite_brackets ("trigger_data." ++ rest).data) =
      rewrite_brackets rest.data := by
  have hdata : ("trigger_data." ++ rest).data = trigger_data_lead ++ rest.data := by
    rw [String.data_append]; rfl
  rw [hdata]
  unfold rewrite_brackets
  rw [rewrite_aux_no_bracket trigger_data_lead rest.data (by decide)]
  unfold strip_trigger_data
  have htake : (trigger_data_lead ++ rewrite_brackets_aux none rest.data).take 13 =
      trigger_data_lead := by
    rw [show (13 : Nat) = trigger_data_lead.length from rfl]
    exact List.take_left _ _
  rw [if_pos htake]
  rw [show (13 : Nat) = trigger_data_lead.length from rfl]
  exact List.drop_left _ _

/-! ### Claim C7 -/

/-- Claim C7 (amended): for every sample document and collected
`trigger_data.*` path, if the polling preflight's path check reports the
path found with value `v`, the runtime path resolver resolves the same
stripped path to that very `v` (so agreement on availability holds
exactly when `v` is non-null); the converse direction of the claim fails
— see the counterexample. -/
theorem C7_preflight_found_implies_runtime (d : Json) (rest : String) (v : Json)
    (h : val_get_nested_value d ("trigger_data." ++ rest) = some v) :
    get_nested_value d rest = v := by
  match d with
  | Json.null =>
      rw [val_get_nested_value.eq_def] at h
      dsimp only at h
      exact absurd h (by simp)
  | Json.bool b =>
      rw [val_get_nested_value.eq_def] at h
      dsimp only at h
      rw [strip_rewrite_trigger] at h
      rw [get_nested_value.eq_def]
      exact val_tmpl_agree _ _ _ h
  | Json.num q =>
      rw [val_get_nested_value.eq_def] at h
      dsimp only at h
      rw [strip_rewrite_trigger] at h
      rw [get_nested_value.eq_def]
      exact val_tmpl_agree _ _ _ h
  | Json.str s =>
      rw [val_get_nested_value.eq_def] at h
      dsimp only at h
      rw [strip_rewrite_trigger] at h
      rw [get_nested_value.eq_def]
      exact val_tmpl_agree _ _ _ h
  | Json.arr xs =>
      rw [val_get_nested_value.eq_def] at h
      dsimp only at h
      rw [strip_rewrite_trigger] at h
      rw [get_nested_value.eq_def]
      exact val_tmpl_agree _ _ _ h
  | Json.obj kvs =>
      rw [val_get_nested_value.eq_def] at h
      dsimp only at h
      rw [strip_rewrite_trigger] at h
      rw [get_nested_value.eq_def]
      exact val_tmpl_agree _ _ _ h

/-- Counterexample for C7 as stated ("found exactly when the runtime
resolver resolves to a non-absent value"): both directions fail.  The
preflight reports `trigger_data.0.subject` missing on a single-object
sample although the runtime resolver resolves it (per-item fallback),
and reports a present-null `trigger_data.k` found although the runtime
resolver returns absent for it. -/
theorem C7_preflight_runtime_disagree :
    (val_get_nested_value (Json.obj [("subject", Json.str "x")]) "trigger_data.0.subject" =
        none ∧
      get_nested_value (Json.obj [("subject", Json.str "x")]) "0.subject" = Json.str "x") ∧
    (val_get_nested_value (Json.obj [("k", Json.null)]) "trigger_data.k" = some Json.null ∧
      get_nested_value (Json.obj [("k", Json.null)]) "k" = Json.null) :=
  ⟨⟨rfl, rfl⟩, ⟨rfl, rfl⟩⟩

/-- Witness for C7 at a concrete input: a found value propagates to the
runtime resolver. -/
theorem C7_preflight_found_implies_runtime_witness :
    get_nested_value (Json.obj [("data", Json.arr [Json.obj [("score", Json.num 85)]])])
      "data.0.score" = Json.num 85 :=
  C7_preflight_found_implies_runtime
    (Json.obj [("data", Json.arr [Json.obj [("score", Json.num 85)]])])
    "data.0.score" (Json.num 85) rfl

/-! ### Claim C8 -/

/-- Claim C8 evaluated at the failing input: the static validator reports
`missing 'value'` for a single-clause condition whose op is `exists` (or
`not_exists`) and which has no `value` key — the very structure the
module's own `DECLARATIVE_ACTIONS_SCHEMA` documents as correct — and
accepts the same clause once a `value` is present, showing the error is
precisely about the absent `value`. -/
theorem C8_validator_rejects_exists_without_value :
    validate_condition_structure
        (Condition.mk (some "invoice.due_date") (some "exists") none none none) "a1" =
      ["a1: condition clause missing 'value'"] ∧
    validate_condition_structure
        (Condition.mk (some "invoice.due_date") (some "not_exists") none none none) "a1" =
      ["a1: condition clause missing 'value'"] ∧
    validate_condition_structure
        (Condition.mk (some "invoice.due_date") (some "exists") (some Json.null) none none)
        "a1" = [] := ⟨rfl, rfl, rfl⟩

/-! ### Template-substitution lemmas -/

/-- Characters before any `'{'` pass through the placeholder scanner. -/
theorem subst_aux_no_brace (f : String → String) (s t : List Char) (h : '{' ∉ s) :
    subst_aux f TState.norm (s ++ t) = s ++ subst_aux f TState.norm t := by
  induction s with
  | nil => simp
  | cons c s' ih =>
      simp only [List.mem_cons] at h
      push_neg at h
      have hc : ¬(c = '{') := fun hh => h.1 hh.symm
      simp only [List.cons_append, subst_aux, if_neg hc, List.append_eq]
      rw [ih h.2]

/-- Inside a placeholder, a non-empty `'}'`-free body closed by `'}}'`
substitutes to the replacement of that body. -/
theorem subst_aux_body (f : String → String) (b : List Char) :
    ∀ (acc t : List Char), (acc ≠ [] ∨ b ≠ []) → '}' ∉ b →
      subst_aux f (TState.body acc) (b ++ '}' :: '}' :: t) =
        (f (String.mk (acc.reverse ++ b))).data ++ subst_aux f TState.norm t := by
  induction b with
  | nil =>
      intro acc t hne _
      have hacc : acc ≠ [] := by
        rcases hne with h | h
        · exact h
        · exact absurd rfl h
      match acc, hacc with
      | a :: as_, _ =>
          simp only [List.nil_append, subst_aux, if_pos rfl]
          simp
  | cons d b' ih =>
      intro acc t hne hnb
      simp only [List.mem_cons] at hnb
      push_neg at hnb
      have hd : ¬(d = '}') := fun hh => hnb.1 hh.symm
      simp only [List.cons_append, subst_aux, if_neg hd, List.append_eq]
      rw [ih (d :: acc) t (Or.inl (by simp)) hnb.2]
      simp

/-- The non-builtin names (all 17 disequalities) from a false
`is_builtin_var`. -/
theorem replace_var_sentinel (clock : Clock) (ctx : PyDict) (b : String)
    (hnb : is_builtin_var (py_strip b) = false)
    (hnull : get_nested_value (Json.obj ctx) (py_strip b) = Json.null) :
    replace_var clock ctx b = "[No available data]" := by
  have h := of_decide_eq_false hnb
  push_neg at h
  obtain ⟨h1, h2, h3, h4, h5, h6, h7, h8, h9, h10, h11, h12, h13, h14, h15, h16, h17⟩ := h
  unfold replace_var
  rw [if_neg h1, if_neg h2, if_neg h3, if_neg h4, if_neg h5, if_neg h6, if_neg h7, if_neg h8,
      if_neg h9, if_neg h10, if_neg h11, if_neg h12, if_neg h13, if_neg h14, if_neg h15,
      if_neg h16, if_neg h17, hnull]

/-! ### Claim C9 -/

/-- Claim C9: every `\x7b\x7b…\x7d\x7d` placeholder whose (trimmed) body is
neither a built-in name nor resolvable as a path in the context is
replaced by the literal sentinel `"[No available data]"`, and template
resolution continues with the rest of the template (it is a total
function — missing variables never fail the execution).  The placeholder
is any non-empty `'}'`-free body; the prefix condition `'{' ∉ s` pins the
placeholder as the one being scanned. -/
theorem C9_missing_placeholder_sentinel (clock : Clock) (ctx : PyDict) (s b t : String)
    (hs : '{' ∉ s.data) (hb1 : b.data ≠ []) (hb2 : '}' ∉ b.data)
    (hnb : is_builtin_var (py_strip b) = false)
    (hnull : get_nested_value (Json.obj ctx) (py_strip b) = Json.null) :
    resolve_template clock (s ++ "\x7b\x7b" ++ b ++ "\x7d\x7d" ++ t) ctx =
      s ++ "[No available data]" ++ resolve_template clock t ctx := by
  apply String.ext
  have hdata : (s ++ "\x7b\x7b" ++ b ++ "\x7d\x7d" ++ t).data =
      s.data ++ ('{' :: '{' :: (b.data ++ '}' :: '}' :: t.data)) := by
    simp [String.data_append]
  unfold resolve_template
  rw [hdata]
  rw [subst_aux_no_brace _ _ _ hs]
  have hopen : subst_aux (replace_var clock ctx) TState.norm
      ('{' :: '{' :: (b.data ++ '}' :: '}' :: t.data)) =
      subst_aux (replace_var clock ctx) (TState.body []) (b.data ++ '}' :: '}' :: t.data) := by
    simp [subst_aux]
  rw [hopen]
  rw [subst_aux_body _ _ [] _ (Or.inr hb1) hb2]
  simp only [List.reverse_nil, List.nil_append]
  have hb : String.mk b.data = b := rfl
  rw [hb, replace_var_sentinel clock ctx b hnb hnull]
  simp [String.data_append]

/-- Witness for C9 at the spec's own example:
`resolve("\x7b\x7bno_such\x7d\x7d", \x7b\x7d) == "[No available data]"`. -/
theorem C9_missing_placeholder_sentinel_witness :
    resolve_template clock0 "\x7b\x7bno_such\x7d\x7d" [] = "[No available data]" := by
  have h := C9_missing_placeholder_sentinel clock0 [] "" "no_such" ""
    (by decide) (by decide) (by decide) (by decide) rfl
  simpa using h

/-! ### Executor loop lemmas -/

/-- Executed (non-skipped) entries of a result list. -/
def count_executed_results (rs : List ActionResult) : Nat :=
  (rs.filter (fun r => !r.skipped)).length

/-- Failed (non-skipped, unsuccessful) entries of a result list. -/
def count_failed_results (rs : List ActionResult) : Nat :=
  (rs.filter (fun r => !r.skipped && !r.success)).length

def dummy_result : ActionResult :=
  { action_id := "", tool := none, success := false, duration_ms := 0, output := Json.null,
    error := none, skipped := false, condition_result := none }

def dummy_action : ActionDict :=
  { action_id := none, id := none, tool := none, condition := none, params := none,
    parameters := none, output_as := none }

/-- Every step of the executor loop either continues, appending exactly
one `ActionResult` for the current action (a skip, a success, or a soft
failure, with the matching counter updates), or halts on the usage-limit
path, again appending exactly one result for the current action. -/
theorem exec_step_shape (env : ExecEnv) (a : ActionDict) (st : ExecState) :
    (∃ (r0 : ActionResult) (st' : ExecState),
      exec_step env a st = StepRes.cont st' ∧
      st'.results = st.results ++ [r0] ∧
      r0.action_id = action_id_of a st.results.length ∧ r0.tool = a.tool ∧
      ((r0.skipped = true ∧ r0.success = true ∧
          st'.executed = st.executed ∧ st'.failed = st.failed) ∨
       (r0.skipped = false ∧ r0.success = true ∧
          st'.executed = st.executed + 1 ∧ st'.failed = st.failed) ∨
       (r0.skipped = false ∧ r0.success = false ∧
          st'.executed = st.executed + 1 ∧ st'.failed = st.failed + 1))) ∨
    (∃ (r0 : ActionResult) (r : ExecutionResult) (ns : List Notif),
      exec_step env a st = StepRes.halted r ns ∧
      r.status = ExecutionStatus.UsageLimitExceeded ∧
      r.action_results = st.results ++ [r0] ∧
      r0.action_id = action_id_of a st.results.length ∧ r0.tool = a.tool) := by
  unfold exec_step
  by_cases hg :
    (match a.condition with
     | some c => evaluate_condition env.clock c st.context
     | none => true) = false
  · rw [if_pos hg]
    exact Or.inl ⟨_, _, rfl, rfl, rfl, rfl, Or.inl ⟨rfl, rfl, rfl, rfl⟩⟩
  · rw [if_neg hg]
    rcases h3 : execute_tool env.loads env.registry a.tool
        (resolve_parameters env.clock (params_of a) st.context) env.user_id env.request_id
        env.timeout_str with ⟨succ, out, err⟩
    simp only [h3]
    by_cases hu : succ = true ∧ is_usage_limit_error out = true
    · rw [if_pos hu]
      exact Or.inr ⟨_, _, _, rfl, rfl, rfl, rfl, rfl⟩
    · rw [if_neg hu]
      by_cases hs : succ = true
      · rw [if_pos hs]
        exact Or.inl ⟨_, _, rfl, rfl, rfl, rfl, Or.inr (Or.inl ⟨rfl, rfl, rfl, rfl⟩)⟩
      · rw [if_neg hs]
        exact Or.inl ⟨_, _, rfl, rfl, rfl, rfl, Or.inr (Or.inr ⟨rfl, rfl, rfl, rfl⟩)⟩

theorem count_executed_append (rs : List ActionResult) (r : ActionResult) :
    count_executed_results (rs ++ [r]) =
      count_executed_results rs + (if r.skipped then 0 else 1) := by
  unfold count_executed_results
  rw [List.filter_append]
  cases hsk : r.skipped <;> simp [hsk]

theorem count_failed_append (rs : List ActionResult) (r : ActionResult) :
    count_failed_results (rs ++ [r]) =
      count_failed_results rs + (if !r.skipped && !r.success then 1 else 0) := by
  unfold count_failed_results
  rw [List.filter_append]
  cases hsk : r.skipped <;> cases hsu : r.success <;> simp [hsk, hsu]

theorem count_failed_le_executed (rs : List ActionResult) :
    count_failed_results rs ≤ count_executed_results rs := by
  induction rs with
  | nil => simp [count_failed_results, count_executed_results]
  | cons r rest ih =>
      unfold count_failed_results count_executed_results at ih ⊢
      rw [show r :: rest = [r] ++ rest from rfl, List.filter_append, List.filter_append]
      cases hsk : r.skipped <;> cases hsu : r.success <;> simp [hsk, hsu] <;> omega

/-- The loop appends one result per processed action, in order, with the
matching id and tool; it processes every action unless it halts with the
usage-limit status. -/
theorem exec_loop_results (env : ExecEnv) :
    ∀ (acts : List ActionDict) (st : ExecState),
    ∃ newRs : List ActionResult,
      (exec_loop env acts st).1.action_results = st.results ++ newRs ∧
      newRs.length ≤ acts.length ∧
      ((exec_loop env acts st).1.status ≠ ExecutionStatus.UsageLimitExceeded →
        newRs.length = acts.length) ∧
      (∀ j, j < newRs.length →
        (newRs.getD j dummy_result).action_id =
          action_id_of (acts.getD j dummy_action) (st.results.length + j) ∧
        (newRs.getD j dummy_result).tool = (acts.getD j dummy_action).tool) := by
  intro acts
  induction acts with
  | nil =>
      intro st
      refine ⟨[], by simp [exec_loop, finalize_result], by simp, fun _ => by simp, by simp⟩
  | cons a rest ih =>
      intro st
      rcases exec_step_shape env a st with
        ⟨r0, st', hstep, hres, hid, htool, _⟩ | ⟨r0, r, ns, hstep, hstat, hres, hid, htool⟩
      · obtain ⟨newRs', h1, h2, h3, h4⟩ := ih st'
        have hloop : exec_loop env (a :: rest) st = exec_loop env rest st' := by
          rw [exec_loop, hstep]
        refine ⟨r0 :: newRs', ?_, ?_, ?_, ?_⟩
        · rw [hloop, h1, hres]
          simp
        · simp only [List.length_cons]
          omega
        · intro hnl
          rw [hloop] at hnl
          simp only [List.length_cons]
          rw [h3 hnl]
        · intro j hj
          match j with
          | 0 =>
              simpa using ⟨hid, htool⟩
          | j' + 1 =>
              simp only [List.length_cons] at hj
              have := h4 j' (by omega)
              rw [hres] at this
              simp only [List.length_append, List.length_cons, List.length_nil] at this
              simpa [Nat.add_assoc, Nat.add_comm 1 j', Nat.add_left_comm] using this
      · have hloop : exec_loop env (a :: rest) st = (r, ns) := by
          rw [exec_loop, hstep]
        refine ⟨[r0], ?_, ?_, ?_, ?_⟩
        · rw [hloop, hres]
        · simp
        · intro hnl
          rw [hloop] at hnl
          exact absurd hstat hnl
        · intro j hj
          match j with
          | 0 => simpa using ⟨hid, htool⟩

/-- Unless it halts on the usage-limit path, the loop ends in the status
classifier over a final state whose counters equal the executed/failed
counts of its result list. -/
theorem exec_loop_finalizes (env : ExecEnv) :
    ∀ (acts : List ActionDict) (st : ExecState),
    st.executed = count_executed_results st.results →
    st.failed = count_failed_results st.results →
    (exec_loop env acts st).1.status = ExecutionStatus.UsageLimitExceeded ∨
    ∃ stf : ExecState,
      exec_loop env acts st = (finalize_result stf, stf.notifications) ∧
      stf.executed = count_executed_results stf.results ∧
      stf.failed = count_failed_results stf.results := by
  intro acts
  induction acts with
  | nil =>
      intro st h1 h2
      exact Or.inr ⟨st, rfl, h1, h2⟩
  | cons a rest ih =>
      intro st h1 h2
      rcases exec_step_shape env a st with
        ⟨r0, st', hstep, hres, _, _, hcases⟩ | ⟨r0, r, ns, hstep, hstat, _, _, _⟩
      · have hloop : exec_loop env (a :: rest) st = exec_loop env rest st' := by
          rw [exec_loop, hstep]
        have hE : st'.executed = count_executed_results st'.results := by
          rw [hres, count_executed_append]
          rcases hcases with ⟨hsk, hsu, he, hf⟩ | ⟨hsk, hsu, he, hf⟩ | ⟨hsk, hsu, he, hf⟩ <;>
            rw [he, hsk] <;> simp <;> omega
        have hF : st'.failed = count_failed_results st'.results := by
          rw [hres, count_failed_append]
          rcases hcases with ⟨hsk, hsu, he, hf⟩ | ⟨hsk, hsu, he, hf⟩ | ⟨hsk, hsu, he, hf⟩ <;>
            rw [hf, hsk, hsu] <;> simp <;> omega
        rw [hloop]
        exact ih st' hE hF
      · have hloop : exec_loop env (a :: rest) st = (r, ns) := by
          rw [exec_loop, hstep]
        rw [hloop]
        exact Or.inl hstat

/-! ### Concrete fixtures for witnesses and counterexamples -/

/-- A `json.loads` stand-in that always fails to parse (adequate for the
fixtures: no handler below returns a parseable string). -/
def no_loads : String → Option Json := fun _ => none

/-- A tool whose invocation reports a usage limit. -/
def lim_tool : Tool :=
  ⟨fun _ => HandlerOutcome.ok (Json.obj
    [("error", Json.str "USAGE_LIMIT_EXCEEDED"), ("service", Json.str "sms"),
     ("message", Json.str "over")])⟩

/-- A tool that succeeds with a structured value. -/
def ok_tool : Tool := ⟨fun _ => HandlerOutcome.ok (Json.bool true)⟩

/-- A tool whose invocation raises. -/
def boom_tool : Tool := ⟨fun _ => HandlerOutcome.exn "boom"⟩

def fix_registry : String → Option Tool := fun n =>
  if n = "lim" then some lim_tool
  else if n = "ok" then some ok_tool
  else if n = "boom" then some boom_tool
  else none

def fix_env : ExecEnv :=
  { loads := no_loads, registry := fix_registry, clock := clock0, user_id := "u1",
    notification_handler := true, automation_id := some "auto-1",
    automation_name := some "My Auto", request_id := none, timeout_str := "30.0" }

/-- `fix_env` with an empty-string automation id. -/
def fix_env_empty_aid : ExecEnv :=
  { fix_env with automation_id := some "" }

def act_lim : ActionDict := ⟨none, some "a1", some "lim", none, none, none, none⟩

def act_ok : ActionDict := ⟨none, some "a2", some "ok", none, none, none, none⟩

def act_boom : ActionDict := ⟨none, some "a3", some "boom", none, none, none, none⟩

def fix_user : UserInfo := ⟨"u1", "e@x", "UTC", none, none⟩

/-! ### Claim C1 -/

/-- Claim C1 (amended): `action_results` contains exactly one entry per
action, in spec order (entry `j` carries the id and tool of action `j`,
skipped actions included) — for every execution that does not halt on the
usage-limit path; an execution halting with status `usage_limit_exceeded`
has exactly one entry per action up to and including the halting one
(still in spec order), and never more entries than actions. -/
theorem C1_one_result_per_processed_action (env : ExecEnv) (acts : List ActionDict)
    (vars trigger_data : PyDict) (u : UserInfo) :
    (execute_automation env acts vars trigger_data u).1.action_results.length ≤ acts.length ∧
    ((execute_automation env acts vars trigger_data u).1.status ≠
        ExecutionStatus.UsageLimitExceeded →
      (execute_automation env acts vars trigger_data u).1.action_results.length = acts.length) ∧
    (∀ j, j < (execute_automation env acts vars trigger_data u).1.action_results.length →
      ((execute_automation env acts vars trigger_data u).1.action_results.getD j
          dummy_result).action_id = action_id_of (acts.getD j dummy_action) j ∧
      ((execute_automation env acts vars trigger_data u).1.action_results.getD j
          dummy_result).tool = (acts.getD j dummy_action).tool) := by
  obtain ⟨newRs, h1, h2, h3, h4⟩ := exec_loop_results env acts
    { context := initial_context trigger_data vars u, results := [], executed := 0,
      failed := 0, errors := [], notifications := [] }
  have hea : (execute_automation env acts vars trigger_data u).1.action_results = newRs := by
    rw [execute_automation, h1]
    simp
  have hst : (execute_automation env acts vars trigger_data u).1.status =
      (exec_loop env acts
        { context := initial_context trigger_data vars u, results := [], executed := 0,
          failed := 0, errors := [], notifications := [] }).1.status := rfl
  refine ⟨?_, ?_, ?_⟩
  · rw [hea]; exact h2
  · intro hnl
    rw [hea]
    exact h3 (hst ▸ hnl)
  · intro j hj
    rw [hea] at hj ⊢
    simpa using h4 j hj

/-- Counterexample for C1 as stated: an execution of two actions whose
first hits a usage limit returns one action result for two actions. -/
theorem C1_usage_limit_counterexample :
    (execute_automation fix_env [act_lim, act_ok] [] [] fix_user).1.action_results.length = 1 ∧
    ([act_lim, act_ok] : List ActionDict).length = 2 := ⟨rfl, rfl⟩

/-- Witness for C1 at a concrete input: a non-halting two-action run has
exactly two results, in order. -/
theorem C1_one_result_per_processed_action_witness :
    (execute_automation fix_env [act_ok, act_boom] [] [] fix_user).1.action_results.length = 2 ∧
    ((execute_automation fix_env [act_ok, act_boom] [] [] fix_user).1.action_results.getD 0
        dummy_result).action_id = "a2" ∧
    ((execute_automation fix_env [act_ok, act_boom] [] [] fix_user).1.action_results.getD 1
        dummy_result).action_id = "a3" := by
  have h := C1_one_result_per_processed_action fix_env [act_ok, act_boom] [] [] fix_user
  have hlen := h.2.1 (by decide)
  refine ⟨hlen, ?_, ?_⟩
  · have := (h.2.2 0 (by decide)).1
    simpa using this
  · have := (h.2.2 1 (by decide)).1
    simpa using this

/-! ### Claim C4 -/

/-- Claim C4 (amended): for every execution that does not halt on the
usage-limit path, with `F` the number of failed (non-skipped) result
entries and `E` the number of executed (non-skipped) entries:
`F=0 ⇒ completed/success`, `0<F<E ⇒ partial_failure/success`,
`F=E>0 ⇒ failed/failure`, and `E=0 ⇒ completed/success`.  (A usage-limit
halt bypasses the classifier — see the counterexample.) -/
theorem C4_status_classification (env : ExecEnv) (acts : List ActionDict)
    (vars trigger_data : PyDict) (u : UserInfo)
    (hnl : (execute_automation env acts vars trigger_data u).1.status ≠
      ExecutionStatus.UsageLimitExceeded) :
    (count_failed_results (execute_automation env acts vars trigger_data u).1.action_results = 0 →
      (execute_automation env acts vars trigger_data u).1.status = ExecutionStatus.Completed ∧
      (execute_automation env acts vars trigger_data u).1.success = true) ∧
    (0 < count_failed_results (execute_automation env acts vars trigger_data u).1.action_results →
      count_failed_results (execute_automation env acts vars trigger_data u).1.action_results <
        count_executed_results (execute_automation env acts vars trigger_data u).1.action_results →
      (execute_automation env acts vars trigger_data u).1.status =
        ExecutionStatus.PartialFailure ∧
      (execute_automation env acts vars trigger_data u).1.success = true) ∧
    (count_failed_results (execute_automation env acts vars trigger_data u).1.action_results =
        count_executed_results (execute_automation env acts vars trigger_data u).1.action_results →
      0 < count_executed_results (execute_automation env acts vars trigger_data u).1.action_results →
      (execute_automation env acts vars trigger_data u).1.status = ExecutionStatus.Failed ∧
      (execute_automation env acts vars trigger_data u).1.success = false) ∧
    (count_executed_results (execute_automation env acts vars trigger_data u).1.action_results = 0 →
      (execute_automation env acts vars trigger_data u).1.status = ExecutionStatus.Completed ∧
      (execute_automation env acts vars trigger_data u).1.success = true) := by
  rcases exec_loop_finalizes env acts
      { context := initial_context trigger_data vars u, results := [], executed := 0,
        failed := 0, errors := [], notifications := [] }
      (by simp [count_executed_results]) (by simp [count_failed_results]) with h | ⟨stf, heq, hE, hF⟩
  · exact absurd h hnl
  · have hrw : (execute_automation env acts vars trigger_data u).1 = finalize_result stf := by
      rw [execute_automation, heq]
    rw [hrw]
    have hres : (finalize_result stf).action_results = stf.results := rfl
    rw [hres]
    have hle := count_failed_le_executed stf.results
    unfold finalize_result
    refine ⟨?_, ?_, ?_, ?_⟩
    · intro h0
      rw [if_pos (by omega)]
      exact ⟨rfl, rfl⟩
    · intro hpos hlt
      rw [if_neg (by omega)]
      rw [if_pos (by omega)]
      exact ⟨rfl, rfl⟩
    · intro hfe hpos
      rw [if_neg (by omega)]
      rw [if_neg (by omega)]
      exact ⟨rfl, rfl⟩
    · intro he0
      rw [if_pos (by omega)]
      exact ⟨rfl, rfl⟩

/-- Counterexample for C4 as stated ("for every execution"): a run whose
first action succeeds and whose second hits a usage limit has `F = 1`
failed and `E = 2` executed entries, yet its status is
`usage_limit_exceeded` with `success=false`, not `partial_failure` with
`success=true`. -/
theorem C4_usage_limit_classification_counterexample :
    count_failed_results
        (execute_automation fix_env [act_ok, act_lim] [] [] fix_user).1.action_results = 1 ∧
    count_executed_results
        (execute_automation fix_env [act_ok, act_lim] [] [] fix_user).1.action_results = 2 ∧
    (execute_automation fix_env [act_ok, act_lim] [] [] fix_user).1.status =
      ExecutionStatus.UsageLimitExceeded ∧
    (execute_automation fix_env [act_ok, act_lim] [] [] fix_user).1.success = false :=
  ⟨rfl, rfl, rfl, rfl⟩

/-- Witness for C4 at a concrete input: one failure among two executed
actions classifies as `partial_failure` with `success=true`. -/
theorem C4_status_classification_witness :
    (execute_automation fix_env [act_ok, act_boom] [] [] fix_user).1.status =
      ExecutionStatus.PartialFailure ∧
    (execute_automation fix_env [act_ok, act_boom] [] [] fix_user).1.success = true := by
  have h := C4_status_classification fix_env [act_ok, act_boom] [] [] fix_user (by decide)
  exact h.2.1 (by decide) (by decide)

/-! ### Claim C2 -/

/-- Claim C2 (amended): whenever a tool invocation succeeds and its
(post-JSON-parse) result is a mapping whose `error` field equals
`"USAGE_LIMIT_EXCEEDED"`, the executor appends that action as failed with
the error `"Usage limit exceeded: <message>"`, calls
`notify_usage_limit_exceeded` exactly when a notification handler is
present and the provided automation id is non-empty (the source's
`if notification_handler and automation_id:` treats an empty id as
absent), invokes no subsequent action (the remaining `rest` does not
appear in the result), and returns an `ExecutionResult` with
`success=false`, status `usage_limit_exceeded` and
`error_summary = "Usage limit exceeded for <service>"`. -/
theorem C2_usage_limit_halt (env : ExecEnv) (a : ActionDict) (rest : List ActionDict)
    (st : ExecState) (okvs : List (String × Json)) (m sv : String) (e : Option String)
    (hgate : (match a.condition with
              | some c => evaluate_condition env.clock c st.context
              | none => true) = true)
    (htool : execute_tool env.loads env.registry a.tool
        (resolve_parameters env.clock (params_of a) st.context) env.user_id env.request_id
        env.timeout_str = (true, Json.obj okvs, e))
    (herr : dget okvs "error" = some (Json.str "USAGE_LIMIT_EXCEEDED"))
    (hmsg : dget okvs "message" = some (Json.str m))
    (hsvc : dget okvs "service" = some (Json.str sv)) :
    exec_loop env (a :: rest) st =
      ({ success := false
         status := ExecutionStatus.UsageLimitExceeded
         actions_executed := st.executed + 1
         actions_failed := 1
         action_results := st.results ++
           [{ action_id := action_id_of a st.results.length, tool := a.tool, success := false,
              duration_ms := 0, output := Json.null,
              error := some ("Usage limit exceeded: " ++ m), skipped := false,
              condition_result := cond_result_of a }]
         duration_ms := 0
         error_summary := some ("Usage limit exceeded for " ++ sv) },
       if env.notification_handler ∧ opt_str_truthy env.automation_id then
         st.notifications ++
           [(env.user_id, env.automation_id.getD "", name_or_default env.automation_name)]
       else st.notifications) := by
  have husage : is_usage_limit_error (Json.obj okvs) = true := by
    unfold is_usage_limit_error
    dsimp only
    rw [herr]
    rfl
  have hstep : exec_step env a st =
      StepRes.halted
        { success := false
          status := ExecutionStatus.UsageLimitExceeded
          actions_executed := st.executed + 1
          actions_failed := 1
          action_results := st.results ++
            [{ action_id := action_id_of a st.results.length, tool := a.tool, success := false,
               duration_ms := 0, output := Json.null,
               error := some ("Usage limit exceeded: " ++ m), skipped := false,
               condition_result := cond_result_of a }]
          duration_ms := 0
          error_summary := some ("Usage limit exceeded for " ++ sv) }
        (if env.notification_handler ∧ opt_str_truthy env.automation_id then
          st.notifications ++
            [(env.user_id, env.automation_id.getD "", name_or_default env.automation_name)]
        else st.notifications) := by
    unfold exec_step
    rw [hgate]
    rw [if_neg (by decide)]
    simp only [htool]
    rw [if_pos (by simp [husage])]
    simp only [hsvc, hmsg, Option.getD_some]
    rfl
  rw [exec_loop, hstep]

/-- Counterexample for C2 as stated: the notification handler and an
automation id (the empty string) are both provided and a usage limit
halts the run, yet no `notify_usage_limit_exceeded` call is made. -/
theorem C2_no_notification_for_empty_automation_id :
    fix_env_empty_aid.notification_handler = true ∧
    fix_env_empty_aid.automation_id = some "" ∧
    (execute_automation fix_env_empty_aid [act_lim] [] [] fix_user).1.status =
      ExecutionStatus.UsageLimitExceeded ∧
    (execute_automation fix_env_empty_aid [act_lim] [] [] fix_user).2 = [] :=
  ⟨rfl, rfl, rfl, rfl⟩

/-- Witness for C2 at a concrete input: a two-action run halting on the
first action's usage limit, with the notification recorded. -/
theorem C2_usage_limit_halt_witness :
    exec_loop fix_env [act_lim, act_ok]
        { context := [], results := [], executed := 0, failed := 0, errors := [],
          notifications := [] } =
      ({ success := false
         status := ExecutionStatus.UsageLimitExceeded
         actions_executed := 1
         actions_failed := 1
         action_results :=
           [{ action_id := "a1", tool := some "lim", success := false, duration_ms := 0,
              output := Json.null, error := some "Usage limit exceeded: over", skipped := false,
              condition_result := none }]
         duration_ms := 0
         error_summary := some "Usage limit exceeded for sms" },
       [("u1", "auto-1", "My Auto")]) := by
  have h := C2_usage_limit_halt fix_env act_lim [act_ok]
      { context := [], results := [], executed := 0, failed := 0, errors := [],
        notifications := [] }
      [("error", Json.str "USAGE_LIMIT_EXCEEDED"), ("service", Json.str "sms"),
       ("message", Json.str "over")]
      "over" "sms" none rfl rfl rfl rfl rfl
  exact h.trans (by rfl)
